import Mathlib

/-!
# cxxtools TCP sockets: connect and listen state machines

A shallow embedding of `src/tcpsocketimpl.cpp` (`TcpSocketImpl`, the connecting
socket) and `src/tcpserverimpl.cpp` (`TcpServerImpl`, the listening socket).

The operating system is an explicit value of type `World`: the global `errno`,
the table of open descriptors and the trace of system calls and owner
notifications made so far.  What the operating system answers to the calls made
for one candidate address is carried by the candidate itself (`Candidate`,
`ListenCandidate`): every candidate is attempted at most once in a connect or
listen cycle, so this is as general as an oracle per call.
-/

namespace Cxxtools

/-! ## Constants of the platform headers -/

/-- Value of `EINPROGRESS` in `<cerrno>` (Linux). -/
def EINPROGRESS : Int := 115

/-- Value of `EADDRINUSE` in `<cerrno>` (Linux). -/
def EADDRINUSE : Int := 98

/-- Value of `EBADF` in `<cerrno>` (Linux). -/
def EBADF : Int := 9

/-- Value of `POLLIN` in `<poll.h>`. -/
def POLLIN : Nat := 1

/-- Value of `POLLOUT` in `<poll.h>`. -/
def POLLOUT : Nat := 4

/-- Value of `POLLERR` in `<poll.h>`. -/
def POLLERR : Nat := 8

/-! ## The operating system -/

/-- One observable step: a system call, an owner notification (`connected`,
`closed`, `connectionPending`) or the arming of a poll slot. -/
inductive Event where
  | socket (family : Int) (ret : Int)
  | connect (fd : Int) (addr : Nat) (ret : Int)
  | close (fd : Int)
  | getsockopt (fd : Int)
  | poll (fd : Int)
  | setsockopt (fd : Int)
  | bind (fd : Int) (addr : Nat)
  | listen (fd : Int) (backlog : Int)
  | connected
  | closed
  | connectionPending
  | initializePoll (fd : Int)
  deriving DecidableEq, Repr

/-- The state of the operating system as seen by one socket object: `errno`,
the open descriptors (each with the script `σ` that governs what later calls on
it answer) and the trace of events, oldest first. -/
structure World (σ : Type) where
  errno : Int
  sockets : List (Int × σ)
  trace : List Event
  deriving DecidableEq, Repr

/-- Remove the first entry of the descriptor table whose key is `fd`. -/
def eraseFd {σ : Type} (fd : Int) : List (Int × σ) → List (Int × σ)
  | [] => []
  | (k, v) :: t => if k = fd then t else (k, v) :: eraseFd fd t

/-- The script of the open descriptor `fd`, if it is open. -/
def findFd {σ : Type} (fd : Int) : List (Int × σ) → Option σ
  | [] => none
  | (k, v) :: t => if k = fd then some v else findFd fd t

namespace World

variable {σ : Type}

/-- The descriptors that are open. -/
def openFds (w : World σ) : List Int := w.sockets.map Prod.fst

/-- Append an event to the trace. -/
def emit (w : World σ) (e : Event) : World σ :=
  { w with trace := w.trace ++ [e] }

/-- The call `::socket(family, SOCK_STREAM, 0)` answering `ret`: a non-negative `ret` is
a new open descriptor, a negative one is a failure that sets `errno`. -/
def socket (w : World σ) (family ret err : Int) (script : σ) : World σ :=
  if 0 ≤ ret then
    { w with sockets := (ret, script) :: w.sockets,
             trace := w.trace ++ [Event.socket family ret] }
  else
    { w with errno := err, trace := w.trace ++ [Event.socket family ret] }

/-- The call `::connect(fd, addr, len)` answering `ret`: a nonzero `ret` sets `errno`. -/
def connect (w : World σ) (fd : Int) (addr : Nat) (ret err : Int) : World σ :=
  if ret = 0 then
    { w with trace := w.trace ++ [Event.connect fd addr ret] }
  else
    { w with errno := err, trace := w.trace ++ [Event.connect fd addr ret] }

/-- The call `::close(fd)`.  The sources ignore its result; the call is taken to succeed
and a successful call leaves `errno` as it was. -/
def close (w : World σ) (fd : Int) : World σ :=
  { w with sockets := eraseFd fd w.sockets, trace := w.trace ++ [Event.close fd] }

/-- The call `::setsockopt(fd, SOL_SOCKET, SO_REUSEADDR, ..)` answering `ret`: a
negative `ret` sets `errno`. -/
def setsockopt (w : World σ) (fd : Int) (ret err : Int) : World σ :=
  if ret < 0 then
    { w with errno := err, trace := w.trace ++ [Event.setsockopt fd] }
  else
    { w with trace := w.trace ++ [Event.setsockopt fd] }

/-- The call `::bind(fd, addr, len)` answering `ret`: a nonzero `ret` sets `errno`. -/
def bind (w : World σ) (fd : Int) (addr : Nat) (ret err : Int) : World σ :=
  if ret = 0 then
    { w with trace := w.trace ++ [Event.bind fd addr] }
  else
    { w with errno := err, trace := w.trace ++ [Event.bind fd addr] }

/-- The call `::listen(fd, backlog)` answering `ret`: a negative `ret` sets `errno`. -/
def listen (w : World σ) (fd : Int) (backlog : Int) (ret err : Int) : World σ :=
  if ret < 0 then
    { w with errno := err, trace := w.trace ++ [Event.listen fd backlog] }
  else
    { w with trace := w.trace ++ [Event.listen fd backlog] }

/-- The call `::getsockopt(fd, SOL_SOCKET, SO_ERROR, ..)` answering `ret`: a nonzero
`ret` sets `errno`. -/
def getsockopt (w : World σ) (fd : Int) (ret err : Int) : World σ :=
  if ret = 0 then
    { w with trace := w.trace ++ [Event.getsockopt fd] }
  else
    { w with errno := err, trace := w.trace ++ [Event.getsockopt fd] }

end World

/-! ## Errors and outcomes -/

/-- The text of an `IOError`: either `getErrnoString(err, fn)` or a literal. -/
inductive Message where
  | errnoString (err : Int) (fn : String)
  | text (s : String)
  deriving DecidableEq, Repr

/-- The exceptions of the two classes. `SystemError(fn)` reads `errno` when it
is constructed, so it carries the error code and the call name. -/
inductive Exception where
  | IOError (msg : Message)
  | IOTimeout
  | SystemError (err : Int) (fn : String)
  | AddressInUse
  deriving DecidableEq, Repr

/-- How a call ends: it returns, it raises, an `assert` fails (the process is
aborted; builds with `NDEBUG` never end so), it increments a cursor that is
already at the end of the list or dereferences a null pointer (undefined in
C++), or the bound on the passes of a loop is used up (which
`endConnect_returns_or_raises` excludes). -/
inductive Outcome (α : Type) where
  | ok (a : α)
  | raised (e : Exception)
  | aborted (assertion : String)
  | undefined
  | outOfFuel
  deriving DecidableEq, Repr

/-- Sequencing: continue with `k` when the first part returned, otherwise end
the same way it ended. -/
def andThen {α β σ : Type} (r : Outcome α × σ) (k : α → σ → Outcome β × σ) :
    Outcome β × σ :=
  match r with
  | (Outcome.ok a, s) => k a s
  | (Outcome.raised e, s) => (Outcome.raised e, s)
  | (Outcome.aborted m, s) => (Outcome.aborted m, s)
  | (Outcome.undefined, s) => (Outcome.undefined, s)
  | (Outcome.outOfFuel, s) => (Outcome.outOfFuel, s)

/-! ## The connecting socket (`TcpSocketImpl`) -/

/-- A slot of the selector's poll array (`struct pollfd`). -/
structure PollFd where
  fd : Int
  events : Nat
  revents : Nat
  deriving DecidableEq, Repr

/-- One entry of the resolved address list (`addrinfo`: `ai_family`, `ai_addr`)
together with what the operating system answers to the calls made for it:
`::socket` (`socketRet`, and `socketErrno` when negative), `::connect`
(`connectRet`, and `connectErrno` when nonzero), the writability wait of
`endConnect` (`waitAvail`) and `::getsockopt(SO_ERROR)` (`getsockoptRet`,
`getsockoptErrno` when nonzero, and the socket error status `sockerr`). -/
structure Candidate where
  ai_family : Int
  ai_addr : Nat
  socketRet : Int
  socketErrno : Int
  connectRet : Int
  connectErrno : Int
  waitAvail : Bool
  getsockoptRet : Int
  getsockoptErrno : Int
  sockerr : Int
  deriving DecidableEq, Repr

/-- The members of `TcpSocketImpl` (with those of its base `IODeviceImpl`: `fd`,
`pfd`) and the world it runs in.  `pfd` is the poll slot `_pfd` points to
(`none` is the null pointer); `rbuf` and `wbuf` are whether a read and a write
buffer are set on the device (`_socket.wbuf()` non-null);
`addrInfoPtr` is the cursor `_addrInfoPtr`, kept as the candidates from the
current one on (`[]` is `_addrInfo.impl()->end()`); `connectResult` is
`_connectResult`, a null `const char*` being `none`. -/
structure TcpSocketImpl where
  fd : Int
  pfd : Option PollFd
  rbuf : Bool
  wbuf : Bool
  isConnected : Bool
  addrInfo : List Candidate
  addrInfoPtr : List Candidate
  peeraddr : Nat
  connectResult : Int × Option String
  os : World Candidate
  deriving DecidableEq, Repr

namespace TcpSocketImpl

/-- Modelled from the spec: `IODeviceImpl::close` of the base class, which is
not among the sources. §4.1: closing an already-closed object is a no-op;
closing detaches the poll slot reference and closes the descriptor. -/
def baseClose (s : TcpSocketImpl) : TcpSocketImpl :=
  if s.fd ≠ -1 then
    { s with fd := -1, pfd := none, os := s.os.close s.fd }
  else s

/-- Modelled from the spec: `IODeviceImpl::open(fd, true, false)` of the base
class, which is not among the sources. §4.3: "open the descriptor in
non-blocking mode"; the object now owns `fd`. -/
def baseOpen (s : TcpSocketImpl) (fd : Int) : TcpSocketImpl :=
  { s with fd := fd }

/-- Source function `TcpSocketImpl::close`. -/
def close (s : TcpSocketImpl) : TcpSocketImpl :=
  { baseClose s with isConnected := false }

/-- Source function `TcpSocketImpl::checkPendingError`. -/
def checkPendingError (s : TcpSocketImpl) : Outcome Unit × TcpSocketImpl :=
  match s.connectResult with
  | (_, none) => (Outcome.ok (), s)
  | (first, some second) =>
    let s1 := { s with connectResult := (0, none) }
    if first ≠ 0 then
      (Outcome.raised (Exception.IOError (Message.errnoString first second)), s1)
    else
      (Outcome.raised (Exception.IOError (Message.text "invalid address information")), s1)

/-- The two nested `while (true)` loops of `tryConnect`, entered with the cursor
on `c` and `rest` behind it.  Both loops continue at the same place, the
`::socket` call for the candidate the cursor has just been moved to, so they
are one recursion here. -/
def tryConnectLoop : Candidate → List Candidate → TcpSocketImpl →
    (Int × Option String) × TcpSocketImpl
  | c, rest, s =>
    let s1 := { s with os := s.os.socket c.ai_family c.socketRet c.socketErrno c }
    if 0 ≤ c.socketRet then
      let s2 := baseOpen s1 c.socketRet
      let s3 := { s2 with peeraddr := c.ai_addr }
      let s4 := { s3 with os := s3.os.connect s3.fd c.ai_addr c.connectRet c.connectErrno }
      if c.connectRet = 0 then
        ((0, none), { s4 with isConnected := true })
      else if s4.os.errno = EINPROGRESS then
        ((0, none), s4)
      else
        let s5 := close s4
        match rest with
        | [] => ((s5.os.errno, some "connect"), { s5 with addrInfoPtr := [] })
        | c' :: rest' => tryConnectLoop c' rest' { s5 with addrInfoPtr := c' :: rest' }
    else
      match rest with
      | [] => ((s1.os.errno, some "socket"), { s1 with addrInfoPtr := [] })
      | c' :: rest' => tryConnectLoop c' rest' { s1 with addrInfoPtr := c' :: rest' }

/-- Source function `TcpSocketImpl::tryConnect`.  With `ndebug` the `assert` is compiled out. -/
def tryConnect (ndebug : Bool) (s : TcpSocketImpl) :
    Outcome (Int × Option String) × TcpSocketImpl :=
  if !ndebug && s.fd ≠ -1 then
    (Outcome.aborted "_fd == -1", s)
  else
    match s.addrInfoPtr with
    | [] => (Outcome.ok (0, some "invalid address information"), s)
    | c :: rest =>
      let r := tryConnectLoop c rest s
      (Outcome.ok r.1, r.2)

/-- Source function `TcpSocketImpl::beginConnect`. -/
def beginConnect (ndebug : Bool) (s : TcpSocketImpl) (addrInfo : List Candidate) :
    Outcome Bool × TcpSocketImpl :=
  if !ndebug && s.isConnected then
    (Outcome.aborted "!_isConnected", s)
  else
    let s1 := { s with addrInfo := addrInfo, addrInfoPtr := addrInfo }
    andThen (tryConnect ndebug s1) fun r s2 =>
    let s3 := { s2 with connectResult := r }
    andThen (checkPendingError s3) fun _ s4 =>
    (Outcome.ok s4.isConnected, s4)

/-- Modelled from the spec: `IODeviceImpl::wait(timeout, pfd)` of the base
class, which is not among the sources. §4.3: "wait for writability on the
current descriptor with the configured timeout"; the wait either returns
readiness or times out.  Nothing becomes writable on a descriptor that is not
open. -/
def wait (s : TcpSocketImpl) : Bool × TcpSocketImpl :=
  let s1 := { s with os := s.os.emit (Event.poll s.fd) }
  match findFd s.fd s.os.sockets with
  | some c => (c.waitAvail, s1)
  | none => (false, s1)

/-- Source function `TcpSocketImpl::checkConnect`.  The answer of `::getsockopt` is the one
scripted for the open descriptor; on a descriptor that is not open the call
fails with `EBADF`. -/
def checkConnect (s : TcpSocketImpl) : Outcome Int × TcpSocketImpl :=
  let ans : Int × Int × Int :=
    match findFd s.fd s.os.sockets with
    | some c => (c.getsockoptRet, c.getsockoptErrno, c.sockerr)
    | none => (-1, EBADF, 0)
  let s1 := { s with os := s.os.getsockopt s.fd ans.1 ans.2.1 }
  if ans.1 ≠ 0 then
    let e := s1.os.errno
    let s2 := close s1
    (Outcome.raised (Exception.SystemError e "getsockopt"), s2)
  else if ans.2.2 = 0 then
    (Outcome.ok ans.2.2, { s1 with isConnected := true })
  else
    (Outcome.ok ans.2.2, s1)

/-- The increment `++_addrInfoPtr`; `none` when the cursor is already at the
end of the list. -/
def advance (s : TcpSocketImpl) : Option TcpSocketImpl :=
  match s.addrInfoPtr with
  | [] => none
  | _ :: rest => some { s with addrInfoPtr := rest }

/-- The end of one pass through the loop of `endConnect`, from `close()` on:
the next candidate is tried and, unless that connected or failed for good, the
loop `again` is entered once more. -/
def endConnectRetry (ndebug : Bool) (again : TcpSocketImpl → Outcome Unit × TcpSocketImpl)
    (s : TcpSocketImpl) : Outcome Unit × TcpSocketImpl :=
  let s1 := close s
  andThen (tryConnect ndebug s1) fun r s2 =>
  let s3 := { s2 with connectResult := r }
  if s3.isConnected then (Outcome.ok (), s3)
  else andThen (checkPendingError s3) fun _ s4 => again s4

/-- The `while (true)` loop of `endConnect`.  Every pass moves the cursor at
least one candidate on, which bounds the number of passes. -/
def endConnectLoop (ndebug : Bool) : Nat → TcpSocketImpl → Outcome Unit × TcpSocketImpl
  | 0, s => (Outcome.outOfFuel, s)
  | fuel + 1, s =>
    let w := wait s
    if w.1 then
      andThen (checkConnect w.2) fun sockerr s2 =>
      if s2.isConnected then (Outcome.ok (), s2)
      else
        match advance s2 with
        | none => (Outcome.undefined, s2)
        | some s3 =>
          if s3.addrInfoPtr.isEmpty then
            (Outcome.raised (Exception.IOError (Message.errnoString sockerr "connect")), s3)
          else endConnectRetry ndebug (fun t => endConnectLoop ndebug fuel t) s3
    else
      match advance w.2 with
      | none => (Outcome.undefined, w.2)
      | some s3 =>
        if s3.addrInfoPtr.isEmpty then (Outcome.raised Exception.IOTimeout, s3)
        else endConnectRetry ndebug (fun t => endConnectLoop ndebug fuel t) s3

/-- The bits of `x` that are not in `m`: `x & ~m`. -/
def clearBits (x m : Nat) : Nat := x ^^^ (x &&& m)

/-- Source function `TcpSocketImpl::endConnect`.  The handler `catch(...) { close(); throw; }`
encloses the whole loop, which is left only by `return` or by an exception, so
it is applied to the way the loop ends. -/
def endConnect (ndebug : Bool) (s : TcpSocketImpl) : Outcome Unit × TcpSocketImpl :=
  let s1 :=
    match s.pfd with
    | some p =>
      if !s.wbuf then { s with pfd := some { p with events := clearBits p.events POLLOUT } }
      else s
    | none => s
  andThen (checkPendingError s1) fun _ s2 =>
  if s2.isConnected then (Outcome.ok (), s2)
  else
    match endConnectLoop ndebug (s2.addrInfoPtr.length + 1) s2 with
    | (Outcome.raised e, s3) => (Outcome.raised e, close s3)
    | r => r

/-- Modelled from the spec: `IODeviceImpl::initWait` of the base class, which
is not among the sources. §4.3: the slot watches the object's descriptor with
"the base device's normal interest": readable while a read buffer is set,
writable while a write buffer is set. -/
def baseInitWait (s : TcpSocketImpl) (_pfd : PollFd) : PollFd :=
  { fd := s.fd, revents := 0,
    events := (if s.rbuf then POLLIN else 0) ||| (if s.wbuf then POLLOUT else 0) }

/-- Source function `TcpSocketImpl::initWait`. -/
def initWait (s : TcpSocketImpl) (pfd : PollFd) : PollFd :=
  let p := baseInitWait s pfd
  if !s.isConnected then { p with events := POLLOUT } else p

/-- Modelled from the spec: `IODeviceImpl::initializePoll(pfd, 1)` of the base
class, which is not among the sources. §6: the component configures the
interest flags of the slot (through `initWait`) and records its reference to
the slot. -/
def initializePoll (s : TcpSocketImpl) (pfd : PollFd) : TcpSocketImpl :=
  let p := initWait s pfd
  { s with pfd := some p, os := s.os.emit (Event.initializePoll p.fd) }

/-- Modelled from the spec: `_device.close()` on the owning device, which is
not among the sources. §4.3: an error condition on a connected socket is
"socket closure"; the device closes this implementation object. -/
def deviceClose (s : TcpSocketImpl) : TcpSocketImpl := close s

/-- Source function `TcpSocketImpl::checkPollEvent(pfd)`.  `base` is
`IODeviceImpl::checkPollEvent` of the base class, which is not among the
sources and to which a connected socket delegates. -/
def checkPollEvent (ndebug : Bool)
    (base : TcpSocketImpl → PollFd → Outcome Bool × TcpSocketImpl)
    (s : TcpSocketImpl) (pfd : PollFd) : Outcome Bool × TcpSocketImpl :=
  if s.isConnected then
    if pfd.revents &&& POLLERR ≠ 0 then
      let s1 := deviceClose s
      (Outcome.ok true, { s1 with os := s1.os.emit Event.closed })
    else base s pfd
  else if pfd.revents &&& POLLERR ≠ 0 then
    match s.addrInfoPtr with
    | [] => (Outcome.undefined, s)
    | _ :: ptr =>
      if ptr.isEmpty then
        (Outcome.ok true, { s with os := s.os.emit Event.connected })
      else
        let s1 := { s with addrInfoPtr := ptr }
        let s2 := close s1
        andThen (tryConnect ndebug s2) fun r s3 =>
        let s4 := { s3 with connectResult := r }
        let s5 :=
          if s4.isConnected || s4.connectResult.2.isSome then
            { s4 with os := s4.os.emit Event.connected }
          else initializePoll s4 pfd
        (Outcome.ok s5.isConnected, s5)
  else if pfd.revents &&& POLLOUT ≠ 0 then
    andThen (checkConnect s) fun sockerr s1 =>
    if s1.isConnected then
      (Outcome.ok true, { s1 with os := s1.os.emit Event.connected })
    else
      match advance s1 with
      | none => (Outcome.undefined, s1)
      | some s2 =>
        if s2.addrInfoPtr.isEmpty then
          let s3 := { s2 with connectResult := (sockerr, some "connect") }
          (Outcome.ok true, { s3 with os := s3.os.emit Event.connected })
        else
          andThen (tryConnect ndebug s2) fun r s3 =>
          let s4 := { s3 with connectResult := r }
          if s4.isConnected then
            (Outcome.ok true, { s4 with os := s4.os.emit Event.connected })
          else (Outcome.ok false, s4)
  else (Outcome.ok false, s)

end TcpSocketImpl

/-! ## The listening socket (`TcpServerImpl`) -/

/-- One entry of the address list `Addrinfo ai(ipaddr, port)` resolves to,
together with what the operating system answers to the calls `listen` makes for
it: `::socket`, `::setsockopt(SO_REUSEADDR)`, `::bind` and `::listen`, each
with the `errno` it sets when it fails. -/
structure ListenCandidate where
  ai_family : Int
  ai_addr : Nat
  socketRet : Int
  socketErrno : Int
  setsockoptRet : Int
  setsockoptErrno : Int
  bindRet : Int
  bindErrno : Int
  listenRet : Int
  listenErrno : Int
  deriving DecidableEq, Repr

/-- The members of `TcpServerImpl` and the world it runs in.  `pfd` is the poll
slot `_pfd` points to (`none` is the null pointer). -/
structure TcpServerImpl where
  fd : Int
  pfd : Option PollFd
  servaddr : Nat
  os : World Unit
  deriving DecidableEq, Repr

namespace TcpServerImpl

/-- The constructor `TcpServerImpl::TcpServerImpl`, in the world `os`. -/
def init (os : World Unit) : TcpServerImpl :=
  { fd := -1, pfd := none, servaddr := 0, os := os }

/-- Source function `TcpServerImpl::create(domain, SOCK_STREAM, 0)`, the `::socket` call
answering `ret` (and setting `errno` to `err` when it fails). -/
def create (s : TcpServerImpl) (domain ret err : Int) : Outcome Unit × TcpServerImpl :=
  let s1 := { s with fd := ret, os := s.os.socket domain ret err () }
  if s1.fd < 0 then (Outcome.raised (Exception.SystemError s1.os.errno "socket"), s1)
  else (Outcome.ok (), s1)

/-- Source function `TcpServerImpl::close`. -/
def close (s : TcpServerImpl) : TcpServerImpl :=
  if 0 ≤ s.fd then
    { s with fd := -1, pfd := none, os := s.os.close s.fd }
  else s

/-- The `for` loop of `TcpServerImpl::listen` over the candidates not yet
visited, with the two statements that follow the loop. -/
def listenLoop (backlog : Int) : List ListenCandidate → TcpServerImpl →
    Outcome Unit × TcpServerImpl
  | [], s =>
    let s1 := close s
    (Outcome.raised (Exception.SystemError s1.os.errno "bind"), s1)
  | c :: rest, s =>
    match create s c.ai_family c.socketRet c.socketErrno with
    | (Outcome.raised (Exception.SystemError _ _), s1) => listenLoop backlog rest s1
    | (Outcome.ok _, s1) =>
      let s2 := { s1 with os := s1.os.setsockopt s1.fd c.setsockoptRet c.setsockoptErrno }
      if c.setsockoptRet < 0 then
        let s3 := close s2
        (Outcome.raised (Exception.SystemError s3.os.errno "setsockopt"), s3)
      else
        let s3 := { s2 with os := s2.os.bind s2.fd c.ai_addr c.bindRet c.bindErrno }
        if c.bindRet = 0 then
          let s4 := { s3 with servaddr := c.ai_addr }
          let s5 := { s4 with os := s4.os.listen s4.fd backlog c.listenRet c.listenErrno }
          if c.listenRet < 0 then
            let s6 := close s5
            if s6.os.errno = EADDRINUSE then (Outcome.raised Exception.AddressInUse, s6)
            else (Outcome.raised (Exception.SystemError s6.os.errno "listen"), s6)
          else (Outcome.ok (), s5)
        else listenLoop backlog rest s3
    | r => r

/-- Source function `TcpServerImpl::listen(ipaddr, port, backlog)`; `ai` is the list of
candidates that `Addrinfo ai(ipaddr, port)` resolves the address to. -/
def listen (s : TcpServerImpl) (ai : List ListenCandidate) (backlog : Int) :
    Outcome Unit × TcpServerImpl :=
  listenLoop backlog ai s

/-- Source function `TcpServerImpl::detach`. -/
def detach (s : TcpServerImpl) : TcpServerImpl :=
  match s.pfd with
  | some _ => { s with pfd := none }
  | none => s

/-- Source function `TcpServerImpl::pollSize`. -/
def pollSize (_s : TcpServerImpl) : Nat := 1

/-- Source function `TcpServerImpl::initializePoll(pfd, pollSize)`.  The slot is passed by
value, so `assert(pfd != 0)` holds; with `ndebug` the other `assert` is
compiled out. -/
def initializePoll (ndebug : Bool) (s : TcpServerImpl) (pfd : PollFd) (pollSize : Nat) :
    Outcome Nat × TcpServerImpl :=
  if !ndebug && pollSize < 1 then (Outcome.aborted "pollSize >= 1", s)
  else
    let p := { pfd with fd := s.fd, revents := 0, events := POLLIN }
    (Outcome.ok 1, { s with pfd := some p })

/-- Source function `TcpServerImpl::checkPollEvent`.  Without a slot the `assert` fails, or
with `ndebug` the null pointer is dereferenced. -/
def checkPollEvent (ndebug : Bool) (s : TcpServerImpl) : Outcome Bool × TcpServerImpl :=
  match s.pfd with
  | none => if ndebug then (Outcome.undefined, s) else (Outcome.aborted "_pfd != 0", s)
  | some p =>
    if p.revents &&& POLLIN ≠ 0 then
      (Outcome.ok true, { s with os := s.os.emit Event.connectionPending })
    else (Outcome.ok false, s)

end TcpServerImpl

/-! ## Vocabulary of the statements -/

namespace TcpSocketImpl

/-- The state `tryConnect` leaves when the attempt on `c` ends with the
connection established or in progress (up to `isConnected`). -/
def attempted (c : Candidate) (s : TcpSocketImpl) : TcpSocketImpl :=
  { s with fd := c.socketRet, peeraddr := c.ai_addr,
           os := (s.os.socket c.ai_family c.socketRet c.socketErrno c).connect
                  c.socketRet c.ai_addr c.connectRet c.connectErrno }

/-- The state in which `tryConnect` goes on after the connect of `c` failed at
once, the cursor moved to `nxt`. -/
def afterConnectFail (c : Candidate) (nxt : List Candidate) (s : TcpSocketImpl) :
    TcpSocketImpl :=
  { s with fd := -1, pfd := none, isConnected := false, peeraddr := c.ai_addr,
           addrInfoPtr := nxt,
           os := ((s.os.socket c.ai_family c.socketRet c.socketErrno c).connect
                  c.socketRet c.ai_addr c.connectRet c.connectErrno).close c.socketRet }

/-- The state in which `tryConnect` goes on after no socket could be created
for `c`, the cursor moved to `nxt`. -/
def afterSocketFail (c : Candidate) (nxt : List Candidate) (s : TcpSocketImpl) :
    TcpSocketImpl :=
  { s with addrInfoPtr := nxt, os := s.os.socket c.ai_family c.socketRet c.socketErrno c }

/-- The calls of an attempt whose connect fails at once. -/
def failedConnectEvents (c : Candidate) : List Event :=
  [Event.socket c.ai_family c.socketRet, Event.connect c.socketRet c.ai_addr c.connectRet,
   Event.close c.socketRet]

/-- The calls of an attempt whose connect completes or stays in progress. -/
def connectEvents (c : Candidate) : List Event :=
  [Event.socket c.ai_family c.socketRet, Event.connect c.socketRet c.ai_addr c.connectRet]

/-- The candidate fails at once: its socket is not created, or its connect
fails with an error other than in-progress. -/
def FailsAtOnce (c : Candidate) : Prop :=
  c.socketRet < 0 ∨ (c.connectRet ≠ 0 ∧ c.connectErrno ≠ EINPROGRESS)

instance (c : Candidate) : Decidable (FailsAtOnce c) := by
  unfold FailsAtOnce
  infer_instance

/-- The error code of the call that fails for a candidate that fails at once. -/
def failureErrno (c : Candidate) : Int :=
  if c.socketRet < 0 then c.socketErrno else c.connectErrno

/-- The name of the call that fails for a candidate that fails at once. -/
def failureCall (c : Candidate) : String :=
  if c.socketRet < 0 then "socket" else "connect"

/-- The calls made for a candidate that fails at once. -/
def failedEvents (c : Candidate) : List Event :=
  if c.socketRet < 0 then [Event.socket c.ai_family c.socketRet] else failedConnectEvents c

/-- The candidate's socket is created, its connect stays in progress and the
wait for writability on it times out. -/
def TimesOut (c : Candidate) : Prop :=
  0 ≤ c.socketRet ∧ c.connectRet ≠ 0 ∧ c.connectErrno = EINPROGRESS ∧ c.waitAvail = false

instance (c : Candidate) : Decidable (TimesOut c) := by
  unfold TimesOut
  infer_instance

/-- The calls made for a candidate whose connect stays in progress until the
wait times out. -/
def timedOutEvents (c : Candidate) : List Event :=
  [Event.socket c.ai_family c.socketRet, Event.connect c.socketRet c.ai_addr c.connectRet,
   Event.poll c.socketRet, Event.close c.socketRet]

/-- The state in which the loop of `endConnect` goes on after the wait on the
current candidate timed out and the connect of the next one, `q`, is in
progress. -/
def afterTimeout (q : Candidate) (rest : List Candidate) (s : TcpSocketImpl) : TcpSocketImpl :=
  { attempted q (close { s with addrInfoPtr := q :: rest,
                                os := s.os.emit (Event.poll s.fd) }) with
    connectResult := (0, none) }

/-- The state after the first statement of `endConnect`, which clears the
writable interest of the poll slot when no write buffer is set. -/
def entered (s : TcpSocketImpl) : TcpSocketImpl :=
  match s.pfd with
  | some p =>
    if !s.wbuf then { s with pfd := some { p with events := clearBits p.events POLLOUT } }
    else s
  | none => s

/-- A stand-in for `IODeviceImpl::checkPollEvent`, used where the socket is not
connected and the base class is never asked. -/
def noBase (s : TcpSocketImpl) (_pfd : PollFd) : Outcome Bool × TcpSocketImpl :=
  (Outcome.ok false, s)

/-- The number of `connected` notifications in a trace. -/
def notified (t : List Event) : Nat := t.count Event.connected

/-- Whether an event is the arming of a poll slot. -/
def isArming : Event → Bool
  | Event.initializePoll _ => true
  | _ => false

/-- The number of poll slots armed in a trace. -/
def armed (t : List Event) : Nat := t.countP isArming

/-- Outcome (a) of a call that took `s` to `t`: the socket is connected and
`connected` was notified exactly once. -/
def EndsConnected (s t : TcpSocketImpl) : Prop :=
  t.isConnected = true ∧ notified t.os.trace = notified s.os.trace + 1 ∧
    armed t.os.trace = armed s.os.trace

/-- Outcome (b) of a call that took `s` to `t`: the socket is not connected,
no slot was armed and `connected` was notified exactly once. -/
def EndsFailed (s t : TcpSocketImpl) : Prop :=
  t.isConnected = false ∧ notified t.os.trace = notified s.os.trace + 1 ∧
    armed t.os.trace = armed s.os.trace

/-- Outcome (c) of a call that took `s` to `t`: the connect of a candidate is in
flight on an open descriptor, exactly one poll slot was armed, for that
descriptor and for the writable condition, no error is pending and no
notification was sent. -/
def EndsInFlight (s t : TcpSocketImpl) : Prop :=
  t.isConnected = false ∧ t.connectResult.2 = none ∧ t.addrInfoPtr ≠ [] ∧
    (findFd t.fd t.os.sockets).isSome = true ∧
    notified t.os.trace = notified s.os.trace ∧ armed t.os.trace = armed s.os.trace + 1 ∧
    t.pfd = some { fd := t.fd, events := POLLOUT, revents := 0 }

instance (s t : TcpSocketImpl) : Decidable (EndsConnected s t) := by
  unfold EndsConnected
  infer_instance

instance (s t : TcpSocketImpl) : Decidable (EndsFailed s t) := by
  unfold EndsFailed
  infer_instance

instance (s t : TcpSocketImpl) : Decidable (EndsInFlight s t) := by
  unfold EndsInFlight
  infer_instance

end TcpSocketImpl

namespace TcpServerImpl

/-- The candidate is passed over by `listen`: no socket is created for it, or
its socket is created, the option is set and `bind` fails. -/
def PassedOver (p : ListenCandidate) : Prop :=
  p.socketRet < 0 ∨ (¬ p.setsockoptRet < 0 ∧ p.bindRet ≠ 0)

instance (p : ListenCandidate) : Decidable (PassedOver p) := by
  unfold PassedOver
  infer_instance

/-- The calls made for a candidate that is passed over. -/
def passedOverEvents (p : ListenCandidate) : List Event :=
  if p.socketRet < 0 then [Event.socket p.ai_family p.socketRet]
  else [Event.socket p.ai_family p.socketRet, Event.setsockopt p.socketRet,
        Event.bind p.socketRet p.ai_addr]

/-- The descriptors created for the candidates of a list, newest first. -/
def created : List ListenCandidate → List (Int × Unit)
  | [] => []
  | p :: rest => created rest ++ (if 0 ≤ p.socketRet then [(p.socketRet, ())] else [])

/-- The calls made for a candidate on which `::listen` fails. -/
def listenFailedEvents (c : ListenCandidate) (backlog : Int) : List Event :=
  [Event.socket c.ai_family c.socketRet, Event.setsockopt c.socketRet,
   Event.bind c.socketRet c.ai_addr, Event.listen c.socketRet backlog,
   Event.close c.socketRet]

/-- The state in which the loop of `listen` goes on after `p` was passed
over. -/
def afterPassedOver (p : ListenCandidate) (s : TcpServerImpl) : TcpServerImpl :=
  { s with fd := p.socketRet,
           os := { errno := if p.socketRet < 0 then p.socketErrno else p.bindErrno,
                   sockets := (if 0 ≤ p.socketRet then [(p.socketRet, ())] else []) ++
                     s.os.sockets,
                   trace := s.os.trace ++ passedOverEvents p } }

end TcpServerImpl

/-! ## Sample inputs -/

/-- A world in which nothing has happened yet. -/
def World.fresh (σ : Type) : World σ := { errno := 0, sockets := [], trace := [] }

/-- A connecting socket as its constructor leaves it. -/
def TcpSocketImpl.fresh : TcpSocketImpl :=
  { fd := -1, pfd := none, rbuf := false, wbuf := false, isConnected := false
    addrInfo := [], addrInfoPtr := [], peeraddr := 0, connectResult := (0, none)
    os := World.fresh Candidate }

/-- A candidate at address `a` whose socket is `fd` and whose connect is
refused (`ECONNREFUSED`, 111). -/
def Candidate.refused (fd : Int) (a : Nat) : Candidate :=
  { ai_family := 2, ai_addr := a, socketRet := fd, socketErrno := 0
    connectRet := -1, connectErrno := 111, waitAvail := false
    getsockoptRet := 0, getsockoptErrno := 0, sockerr := 0 }

/-- A candidate at address `a` whose socket is `fd` and whose connect
completes at once. -/
def Candidate.accepted (fd : Int) (a : Nat) : Candidate :=
  { Candidate.refused fd a with connectRet := 0 }

/-- A candidate at address `a` for which no socket can be created (`EMFILE`,
24). -/
def Candidate.noSocket (a : Nat) : Candidate :=
  { Candidate.refused (-1) a with socketErrno := 24 }

/-- A candidate at address `a` whose socket is `fd` and whose connect stays in
progress; the wait for writability answers `avail` and the socket error status
is `sockerr`. -/
def Candidate.pending (fd : Int) (a : Nat) (avail : Bool) (sockerr : Int) : Candidate :=
  { Candidate.refused fd a with connectErrno := 115, waitAvail := avail, sockerr := sockerr }

/-- A candidate at address `a` whose socket is `fd`, whose connect stays in
progress and on which `::getsockopt` fails (`ENOTSOCK`, 88). -/
def Candidate.unreadable (fd : Int) (a : Nat) : Candidate :=
  { Candidate.pending fd a true 0 with getsockoptRet := -1, getsockoptErrno := 88 }

/-- A listen candidate at address `a` whose socket is `fd` and on which `bind`
fails (`EADDRNOTAVAIL`, 99). -/
def ListenCandidate.unbindable (fd : Int) (a : Nat) : ListenCandidate :=
  { ai_family := 2, ai_addr := a, socketRet := fd, socketErrno := 0
    setsockoptRet := 0, setsockoptErrno := 0, bindRet := -1, bindErrno := 99
    listenRet := 0, listenErrno := 0 }

/-- A listen candidate at address `a` whose socket is `fd`, which is bound and
on which `::listen` fails with the error code `err`. -/
def ListenCandidate.unlistenable (fd : Int) (a : Nat) (err : Int) : ListenCandidate :=
  { ListenCandidate.unbindable fd a with bindRet := 0, bindErrno := 0
                                         listenRet := -1, listenErrno := err }

/-- A poll slot for descriptor `fd` with the result flags `revents`. -/
def PollFd.result (fd : Int) (revents : Nat) : PollFd :=
  { fd := fd, events := POLLOUT, revents := revents }

/-! ## Theorems -/

/-! ### Descriptor table and lists -/

theorem eraseFd_head {σ : Type} (fd : Int) (v : σ) (t : List (Int × σ)) :
    eraseFd fd ((fd, v) :: t) = t := by
  simp [eraseFd]

theorem findFd_head {σ : Type} (fd : Int) (v : σ) (t : List (Int × σ)) :
    findFd fd ((fd, v) :: t) = some v := by
  simp [findFd]

theorem split_at_candidate {α : Type} (cands : List α) (n : Nat) (c : α)
    (h : cands[n]? = some c) : cands = cands.take n ++ c :: cands.drop (n + 1) ∧
      cands.drop n = c :: cands.drop (n + 1) := by
  obtain ⟨hn, hc⟩ := List.getElem?_eq_some_iff.mp h
  have h2 : cands.drop n = c :: cands.drop (n + 1) := by
    rw [List.drop_eq_getElem_cons hn, hc]
  refine ⟨?_, h2⟩
  rw [← h2, List.take_append_drop]

namespace TcpSocketImpl

/-! ### `close`, `checkPendingError`, `checkConnect`, `wait` -/

theorem connecting_close_fd (s : TcpSocketImpl) : (close s).fd = -1 := by
  unfold close baseClose
  split <;> simp_all

theorem connecting_close_isConnected (s : TcpSocketImpl) : (close s).isConnected = false := rfl

theorem connecting_close_close (s : TcpSocketImpl) : close (close s) = close s := by
  have hb : baseClose (close s) = close s := by
    rw [baseClose.eq_def (close s)]
    simp [connecting_close_fd s]
  rw [close.eq_def (close s), hb]
  rfl

theorem close_ptr (s : TcpSocketImpl) : (close s).addrInfoPtr = s.addrInfoPtr := by
  unfold close baseClose
  split <;> rfl

theorem checkPendingError_none (s : TcpSocketImpl) (h : s.connectResult.2 = none) :
    checkPendingError s = (Outcome.ok (), s) := by
  unfold checkPendingError
  cases hcr : s.connectResult with
  | mk a b =>
    rw [hcr] at h
    simp only at h
    subst h
    rfl

theorem checkPendingError_some (s : TcpSocketImpl) (e : Int) (fn : String)
    (h : s.connectResult = (e, some fn)) :
    ∃ x, (checkPendingError s).1 = Outcome.raised x := by
  unfold checkPendingError
  rw [h]
  by_cases he : e = 0
  · exact ⟨Exception.IOError (Message.text "invalid address information"), by simp [he]⟩
  · exact ⟨Exception.IOError (Message.errnoString e fn), by simp [he]⟩

theorem checkConnect_cases (s : TcpSocketImpl) :
    (∃ e, (checkConnect s).1 = Outcome.raised e) ∨
    (∃ sockerr, (checkConnect s).1 = Outcome.ok sockerr ∧
      (checkConnect s).2.addrInfoPtr = s.addrInfoPtr) := by
  unfold checkConnect
  simp only []
  split
  · exact Or.inl ⟨_, rfl⟩
  · split
    · exact Or.inr ⟨_, rfl, rfl⟩
    · exact Or.inr ⟨_, rfl, rfl⟩

theorem wait_ptr (s : TcpSocketImpl) : (wait s).2.addrInfoPtr = s.addrInfoPtr := by
  unfold wait
  simp only []
  split <;> rfl

/-! ### One pass of the loop of `tryConnect` -/

theorem tryConnectLoop_connected (c : Candidate) (rest : List Candidate) (s : TcpSocketImpl)
    (h1 : 0 ≤ c.socketRet) (h2 : c.connectRet = 0) :
    tryConnectLoop c rest s = ((0, none), { attempted c s with isConnected := true }) := by
  rw [tryConnectLoop.eq_def]
  simp [h1, h2, baseOpen, attempted]

theorem tryConnectLoop_inProgress (c : Candidate) (rest : List Candidate) (s : TcpSocketImpl)
    (h1 : 0 ≤ c.socketRet) (h2 : c.connectRet ≠ 0) (h3 : c.connectErrno = EINPROGRESS) :
    tryConnectLoop c rest s = ((0, none), attempted c s) := by
  rw [tryConnectLoop.eq_def]
  simp [h1, h2, h3, baseOpen, attempted, World.connect]

theorem tryConnectLoop_connectFails_last (c : Candidate) (s : TcpSocketImpl)
    (h1 : 0 ≤ c.socketRet) (h2 : c.connectRet ≠ 0) (h3 : c.connectErrno ≠ EINPROGRESS) :
    tryConnectLoop c [] s = ((c.connectErrno, some "connect"), afterConnectFail c [] s) := by
  have h4 : c.socketRet ≠ -1 := by omega
  rw [tryConnectLoop.eq_def]
  simp [h1, h2, h3, h4, baseOpen, afterConnectFail, World.connect, close, baseClose, World.close]

theorem tryConnectLoop_connectFails_next (c c' : Candidate) (rest' : List Candidate)
    (s : TcpSocketImpl)
    (h1 : 0 ≤ c.socketRet) (h2 : c.connectRet ≠ 0) (h3 : c.connectErrno ≠ EINPROGRESS) :
    tryConnectLoop c (c' :: rest') s =
      tryConnectLoop c' rest' (afterConnectFail c (c' :: rest') s) := by
  have h4 : c.socketRet ≠ -1 := by omega
  rw [tryConnectLoop.eq_def]
  simp [h1, h2, h3, h4, baseOpen, afterConnectFail, World.connect, close, baseClose, World.close]

theorem tryConnectLoop_socketFails_last (c : Candidate) (s : TcpSocketImpl)
    (h1 : c.socketRet < 0) :
    tryConnectLoop c [] s = ((c.socketErrno, some "socket"), afterSocketFail c [] s) := by
  have h4 : ¬ 0 ≤ c.socketRet := by omega
  rw [tryConnectLoop.eq_def]
  simp [h4, afterSocketFail, World.socket]

theorem tryConnectLoop_socketFails_next (c c' : Candidate) (rest' : List Candidate)
    (s : TcpSocketImpl) (h1 : c.socketRet < 0) :
    tryConnectLoop c (c' :: rest') s =
      tryConnectLoop c' rest' (afterSocketFail c (c' :: rest') s) := by
  have h4 : ¬ 0 ≤ c.socketRet := by omega
  rw [tryConnectLoop.eq_def]
  simp [h4, afterSocketFail, World.socket]

/-- What the loop of `tryConnect` returns: either success (connected or in
progress) with the cursor on a candidate, or a failure with a call name. -/
theorem tryConnectLoop_result :
    ∀ (rest : List Candidate) (c : Candidate) (s : TcpSocketImpl),
      s.addrInfoPtr = c :: rest →
      ((tryConnectLoop c rest s).1 = (0, none) ∧
        (tryConnectLoop c rest s).2.addrInfoPtr ≠ [] ∧
        (tryConnectLoop c rest s).2.addrInfoPtr.length ≤ rest.length + 1) ∨
      (∃ e fn, (tryConnectLoop c rest s).1 = (e, some fn)) := by
  intro rest
  induction rest with
  | nil =>
    intro c s hptr
    by_cases hs : c.socketRet < 0
    · rw [tryConnectLoop_socketFails_last c s hs]
      exact Or.inr ⟨_, _, rfl⟩
    · have h1 : 0 ≤ c.socketRet := by omega
      by_cases h2 : c.connectRet = 0
      · rw [tryConnectLoop_connected c [] s h1 h2]
        exact Or.inl (by simp [attempted, hptr])
      · by_cases h3 : c.connectErrno = EINPROGRESS
        · rw [tryConnectLoop_inProgress c [] s h1 h2 h3]
          exact Or.inl (by simp [attempted, hptr])
        · rw [tryConnectLoop_connectFails_last c s h1 h2 h3]
          exact Or.inr ⟨_, _, rfl⟩
  | cons q rest ih =>
    intro c s hptr
    by_cases hs : c.socketRet < 0
    · rw [tryConnectLoop_socketFails_next c q rest s hs]
      rcases ih q (afterSocketFail c (q :: rest) s) rfl with h | h
      · exact Or.inl ⟨h.1, h.2.1, by have := h.2.2; simp at this ⊢; omega⟩
      · exact Or.inr h
    · have h1 : 0 ≤ c.socketRet := by omega
      by_cases h2 : c.connectRet = 0
      · rw [tryConnectLoop_connected c _ s h1 h2]
        exact Or.inl (by simp [attempted, hptr])
      · by_cases h3 : c.connectErrno = EINPROGRESS
        · rw [tryConnectLoop_inProgress c _ s h1 h2 h3]
          exact Or.inl (by simp [attempted, hptr])
        · rw [tryConnectLoop_connectFails_next c q rest s h1 h2 h3]
          rcases ih q (afterConnectFail c (q :: rest) s) rfl with h | h
          · exact Or.inl ⟨h.1, h.2.1, by have := h.2.2; simp at this ⊢; omega⟩
          · exact Or.inr h

/-- Calling `tryConnect` right after `close`: the `assert` holds. -/
theorem tryConnect_close (ndebug : Bool) (s : TcpSocketImpl) (c : Candidate)
    (rest : List Candidate) (h : s.addrInfoPtr = c :: rest) :
    tryConnect ndebug (close s) =
      (Outcome.ok (tryConnectLoop c rest (close s)).1, (tryConnectLoop c rest (close s)).2) := by
  have hcl : (close s).addrInfoPtr = c :: rest := by rw [close_ptr, h]
  simp [tryConnect, connecting_close_fd, hcl]

/-- Unfolding of `beginConnect` on a disconnected socket without descriptor, in terms of the
loop of `tryConnect`. -/
theorem beginConnect_cons (ndebug : Bool) (s : TcpSocketImpl) (p : Candidate)
    (rest : List Candidate) (hdis : s.isConnected = false) (hfd : s.fd = -1) :
    beginConnect ndebug s (p :: rest) =
      andThen (checkPendingError
        { (tryConnectLoop p rest { s with addrInfo := p :: rest, addrInfoPtr := p :: rest }).2 with
          connectResult :=
            (tryConnectLoop p rest { s with addrInfo := p :: rest, addrInfoPtr := p :: rest }).1 })
        fun _ s4 => (Outcome.ok s4.isConnected, s4) := by
  simp [beginConnect, hdis, tryConnect, hfd, andThen]

/-! ### `endConnect` returns or raises -/

theorem entered_fields (s : TcpSocketImpl) :
    (entered s).fd = s.fd ∧ (entered s).isConnected = s.isConnected ∧
    (entered s).addrInfoPtr = s.addrInfoPtr ∧ (entered s).connectResult = s.connectResult ∧
    (entered s).os = s.os ∧ (entered s).addrInfo = s.addrInfo := by
  unfold entered
  cases s.pfd with
  | none => simp
  | some p => cases s.wbuf <;> simp

theorem endConnect_entered (ndebug : Bool) (s : TcpSocketImpl) :
    endConnect ndebug s =
      andThen (checkPendingError (entered s)) fun _ s2 =>
        if s2.isConnected then (Outcome.ok (), s2)
        else
          match endConnectLoop ndebug (s2.addrInfoPtr.length + 1) s2 with
          | (Outcome.raised e, s3) => (Outcome.raised e, close s3)
          | r => r := rfl

/-- Unfolding of `endConnect` with no error pending on a socket that is not connected, in
terms of its loop. -/
theorem endConnect_loop (ndebug : Bool) (s : TcpSocketImpl)
    (hres : s.connectResult.2 = none) (hdis : s.isConnected = false) :
    endConnect ndebug s =
      match endConnectLoop ndebug (s.addrInfoPtr.length + 1) (entered s) with
      | (Outcome.raised e, s3) => (Outcome.raised e, close s3)
      | r => r := by
  obtain ⟨e1, e2, e3, e4, e5, e6⟩ := entered_fields s
  rw [endConnect_entered, checkPendingError_none (entered s) (by rw [e4]; exact hres)]
  simp [andThen, e2, hdis, e3]

/-- The end of a pass of the loop of `endConnect`: it returns, it raises, or the
loop is entered again with the cursor on a candidate and no further from the
end than before. -/
theorem endConnectRetry_cases (ndebug : Bool)
    (again : TcpSocketImpl → Outcome Unit × TcpSocketImpl) (s : TcpSocketImpl)
    (hne : s.addrInfoPtr ≠ []) :
    (endConnectRetry ndebug again s).1 = Outcome.ok () ∨
    (∃ e, (endConnectRetry ndebug again s).1 = Outcome.raised e) ∨
    (∃ s4, endConnectRetry ndebug again s = again s4 ∧ s4.addrInfoPtr ≠ [] ∧
      s4.addrInfoPtr.length ≤ s.addrInfoPtr.length) := by
  obtain ⟨c, rest, hptr⟩ : ∃ c rest, s.addrInfoPtr = c :: rest := by
    cases h : s.addrInfoPtr with
    | nil => exact absurd h hne
    | cons a b => exact ⟨a, b, rfl⟩
  have hcl : (close s).addrInfoPtr = c :: rest := by rw [close_ptr, hptr]
  unfold endConnectRetry
  simp only [tryConnect_close ndebug s c rest hptr]
  have hres := tryConnectLoop_result rest c (close s) hcl
  generalize tryConnectLoop c rest (close s) = r at hres ⊢
  obtain ⟨r1, r2⟩ := r
  simp only [andThen]
  by_cases hc : r2.isConnected = true
  · exact Or.inl (by simp [hc])
  · rcases hres with ⟨h1, h2, h3⟩ | ⟨e, fn, h⟩
    · simp only at h1 h2 h3
      subst h1
      refine Or.inr (Or.inr ⟨{ r2 with connectResult := (0, none) }, ?_, h2, ?_⟩)
      · simp [hc, checkPendingError]
      · rw [hptr]
        simpa using h3
    · simp only at h
      subst h
      refine Or.inr (Or.inl ?_)
      by_cases he : e = 0
      · exact ⟨Exception.IOError (Message.text "invalid address information"),
          by simp [hc, checkPendingError, he]⟩
      · exact ⟨Exception.IOError (Message.errnoString e fn),
          by simp [hc, checkPendingError, he]⟩

/-- The part of a pass of the loop of `endConnect` from the increment of the
cursor on returns or raises, provided the loop does so when it is entered
again. -/
theorem endConnect_advance_cases (ndebug : Bool) (fuel : Nat) (s2 : TcpSocketImpl)
    (exn : Exception) (hne : s2.addrInfoPtr ≠ []) (hlen : s2.addrInfoPtr.length ≤ fuel + 1)
    (ih : ∀ t : TcpSocketImpl, t.addrInfoPtr ≠ [] → t.addrInfoPtr.length ≤ fuel →
      (endConnectLoop ndebug fuel t).1 = Outcome.ok () ∨
      ∃ e, (endConnectLoop ndebug fuel t).1 = Outcome.raised e) :
    (match advance s2 with
      | none => (Outcome.undefined, s2)
      | some s3 =>
        if s3.addrInfoPtr.isEmpty then (Outcome.raised exn, s3)
        else endConnectRetry ndebug (fun t => endConnectLoop ndebug fuel t) s3).1 = Outcome.ok () ∨
    ∃ e, (match advance s2 with
      | none => (Outcome.undefined, s2)
      | some s3 =>
        if s3.addrInfoPtr.isEmpty then (Outcome.raised exn, s3)
        else endConnectRetry ndebug (fun t => endConnectLoop ndebug fuel t) s3).1 =
      Outcome.raised e := by
  obtain ⟨c, rest, hptr⟩ : ∃ c rest, s2.addrInfoPtr = c :: rest := by
    cases h : s2.addrInfoPtr with
    | nil => exact absurd h hne
    | cons a b => exact ⟨a, b, rfl⟩
  have hadv : advance s2 = some { s2 with addrInfoPtr := rest } := by
    simp [advance, hptr]
  rw [hadv]
  simp only []
  cases rest with
  | nil => exact Or.inr ⟨exn, by simp⟩
  | cons q rest' =>
    simp only [List.isEmpty_cons, Bool.false_eq_true, if_false]
    rcases endConnectRetry_cases ndebug (fun t => endConnectLoop ndebug fuel t)
      { s2 with addrInfoPtr := q :: rest' } (by simp) with h | ⟨e, h⟩ | ⟨s4, h, h4, h5⟩
    · exact Or.inl h
    · exact Or.inr ⟨e, h⟩
    · rw [h]
      refine ih s4 h4 ?_
      rw [hptr] at hlen
      simp at hlen h5
      omega

/-- The loop of `endConnect`, entered with the cursor on a candidate and a bound
that is at least the number of candidates left, returns or raises: the bound is
never used up, the `assert` of `tryConnect` never fails, the cursor is never
moved past the end. -/
theorem endConnectLoop_returns_or_raises (ndebug : Bool) :
    ∀ (fuel : Nat) (s : TcpSocketImpl), s.addrInfoPtr ≠ [] → s.addrInfoPtr.length ≤ fuel →
      (endConnectLoop ndebug fuel s).1 = Outcome.ok () ∨
      ∃ e, (endConnectLoop ndebug fuel s).1 = Outcome.raised e := by
  intro fuel
  induction fuel with
  | zero =>
    intro s hne hlen
    exact absurd (List.length_eq_zero.mp (Nat.le_zero.mp hlen)) hne
  | succ fuel ih =>
    intro s hne hlen
    rw [endConnectLoop]
    have hw := wait_ptr s
    by_cases hav : (wait s).1 = true
    · simp only [hav, if_true]
      rcases checkConnect_cases (wait s).2 with ⟨e, he⟩ | ⟨sockerr, he, hp⟩
      · refine Or.inr ⟨e, ?_⟩
        generalize checkConnect (wait s).2 = p at he ⊢
        obtain ⟨p1, p2⟩ := p
        simp only at he
        subst he
        rfl
      · generalize checkConnect (wait s).2 = p at he hp ⊢
        obtain ⟨p1, p2⟩ := p
        simp only at he hp
        subst he
        simp only [andThen]
        by_cases hc : p2.isConnected = true
        · exact Or.inl (by simp [hc])
        · simp only [hc, if_false]
          exact endConnect_advance_cases ndebug fuel p2 _ (by rw [hp, hw]; exact hne)
            (by rw [hp, hw]; exact hlen) ih
    · simp only [hav, if_false]
      exact endConnect_advance_cases ndebug fuel (wait s).2 _ (by rw [hw]; exact hne)
        (by rw [hw]; exact hlen) ih

/-- Calling `endConnect` on a socket whose cursor is on a candidate returns or
raises. -/
theorem endConnect_returns_or_raises (ndebug : Bool) (s : TcpSocketImpl)
    (hne : s.addrInfoPtr ≠ []) :
    (endConnect ndebug s).1 = Outcome.ok () ∨ ∃ e, (endConnect ndebug s).1 = Outcome.raised e := by
  obtain ⟨e1, e2, e3, e4, e5, e6⟩ := entered_fields s
  rw [endConnect_entered]
  cases hcr : (entered s).connectResult with
  | mk a b =>
    cases b with
    | some fn =>
      obtain ⟨x, hx⟩ := checkPendingError_some (entered s) a fn hcr
      refine Or.inr ⟨x, ?_⟩
      generalize checkPendingError (entered s) = p at hx ⊢
      obtain ⟨p1, p2⟩ := p
      simp only at hx
      subst hx
      rfl
    | none =>
      rw [checkPendingError_none (entered s) (by rw [hcr])]
      simp only [andThen]
      by_cases hc : (entered s).isConnected = true
      · exact Or.inl (by simp [hc])
      · simp only [hc, if_false]
        have := endConnectLoop_returns_or_raises ndebug ((entered s).addrInfoPtr.length + 1)
          (entered s) (by rw [e3]; exact hne) (by omega)
        generalize endConnectLoop ndebug ((entered s).addrInfoPtr.length + 1) (entered s) = r
          at this ⊢
        obtain ⟨r1, r2⟩ := r
        rcases this with h | ⟨e, h⟩
        · simp only at h
          subst h
          exact Or.inl rfl
        · simp only at h
          subst h
          exact Or.inr ⟨e, rfl⟩

/-! ### C1: the first candidate that connects ends the search -/

theorem tryConnectLoop_first_success (c : Candidate) (post : List Candidate)
    (hc1 : 0 ≤ c.socketRet) (hc2 : c.connectRet = 0) :
    ∀ (pre : List Candidate) (p : Candidate) (rest : List Candidate) (s : TcpSocketImpl),
      p :: rest = pre ++ c :: post → s.addrInfoPtr = p :: rest →
      (∀ q ∈ pre, 0 ≤ q.socketRet ∧ q.connectRet ≠ 0 ∧ q.connectErrno ≠ EINPROGRESS) →
      (tryConnectLoop p rest s).1 = (0, none) ∧
      (tryConnectLoop p rest s).2.isConnected = true ∧
      (tryConnectLoop p rest s).2.addrInfoPtr = c :: post ∧
      (tryConnectLoop p rest s).2.fd = c.socketRet ∧
      (tryConnectLoop p rest s).2.os.trace =
        s.os.trace ++ pre.flatMap failedConnectEvents ++ connectEvents c ∧
      (tryConnectLoop p rest s).2.os.sockets = (c.socketRet, c) :: s.os.sockets ∧
      (tryConnectLoop p rest s).2.connectResult = s.connectResult ∧
      (tryConnectLoop p rest s).2.addrInfo = s.addrInfo := by
  intro pre
  induction pre with
  | nil =>
    intro p rest s hl hptr _
    simp at hl
    obtain ⟨rfl, rfl⟩ := hl
    rw [tryConnectLoop_connected p rest s hc1 hc2]
    simp [attempted, World.socket, World.connect, hc1, hc2, hptr, connectEvents]
  | cons q pre ih =>
    intro p rest s hl hptr hpre
    simp at hl
    obtain ⟨rfl, rfl⟩ := hl
    obtain ⟨hq1, hq2, hq3⟩ := hpre p (by simp)
    obtain ⟨x, y, hxy⟩ : ∃ x y, x :: y = pre ++ c :: post := by
      cases pre with
      | nil => exact ⟨c, post, rfl⟩
      | cons a b => exact ⟨a, b ++ c :: post, rfl⟩
    rw [← hxy, tryConnectLoop_connectFails_next p x y s hq1 hq2 hq3]
    have := ih x y (afterConnectFail p (x :: y) s) hxy rfl (fun q hq => hpre q (by simp [hq]))
    simpa [afterConnectFail, World.socket, World.connect, World.close, hq1, hq2, eraseFd,
      failedConnectEvents] using this

/-- C1. Let candidate `k` (counted from 1) of the list be `ck`, let the socket
of every candidate up to `k` be created, the connect of the candidates before
`k` fail at once with an error other than in-progress and the connect of `ck`
complete at once.  Then `beginConnect` on a disconnected socket returns true
with the socket connected on the descriptor of `ck`, the cursor is on `ck`,
and the calls made are exactly socket, connect, close for each candidate before
`k`, in list order, followed by socket, connect for `ck`: `k` connect attempts
and no call for a later candidate. -/
theorem beginConnect_first_success (ndebug : Bool) (s : TcpSocketImpl)
    (cands : List Candidate) (k : Nat) (ck : Candidate)
    (hdis : s.isConnected = false) (hfd : s.fd = -1)
    (_hk : 1 ≤ k) (hck : cands[k - 1]? = some ck)
    (hpre : ∀ q ∈ cands.take (k - 1),
      0 ≤ q.socketRet ∧ q.connectRet ≠ 0 ∧ q.connectErrno ≠ EINPROGRESS)
    (hsock : 0 ≤ ck.socketRet) (hconn : ck.connectRet = 0) :
    (beginConnect ndebug s cands).1 = Outcome.ok true ∧
    (beginConnect ndebug s cands).2.isConnected = true ∧
    (beginConnect ndebug s cands).2.fd = ck.socketRet ∧
    (beginConnect ndebug s cands).2.addrInfoPtr = cands.drop (k - 1) ∧
    (beginConnect ndebug s cands).2.os.trace =
      s.os.trace ++ (cands.take (k - 1)).flatMap failedConnectEvents ++ connectEvents ck ∧
    (beginConnect ndebug s cands).2.os.sockets = (ck.socketRet, ck) :: s.os.sockets := by
  obtain ⟨hsplit, hdrop⟩ := split_at_candidate cands (k - 1) ck hck
  obtain ⟨p, rest, hpr⟩ : ∃ p rest, cands = p :: rest := by
    cases cands with
    | nil => simp at hck
    | cons a b => exact ⟨a, b, rfl⟩
  have key := tryConnectLoop_first_success ck (cands.drop (k - 1 + 1)) hsock hconn
    (cands.take (k - 1)) p rest { s with addrInfo := cands, addrInfoPtr := cands }
    (by rw [← hpr]; exact hsplit) (by simp [hpr]) hpre
  rw [hdrop]
  rw [hpr] at key ⊢
  rw [beginConnect_cons ndebug s p rest hdis hfd]
  generalize tryConnectLoop p rest { s with addrInfo := p :: rest, addrInfoPtr := p :: rest } = r
    at key ⊢
  obtain ⟨r1, r2⟩ := r
  obtain ⟨k1, k2, k3, k4, k5, k6, k7, k8⟩ := key
  simp only at k1 k2 k3 k4 k5 k6
  subst k1
  simp [checkPendingError, andThen, k2, k3, k4, k5, k6]

/-- Witness of C1: the second of three candidates is the first to connect. -/
theorem beginConnect_first_success_witness :
    fresh.isConnected = false ∧ fresh.fd = -1 ∧
    (beginConnect false fresh
        [Candidate.refused 3 10, Candidate.accepted 3 11, Candidate.accepted 3 12]).1 =
      Outcome.ok true ∧
    (beginConnect false fresh
        [Candidate.refused 3 10, Candidate.accepted 3 11, Candidate.accepted 3 12]).2.os.trace =
      [Event.socket 2 3, Event.connect 3 10 (-1), Event.close 3, Event.socket 2 3,
       Event.connect 3 11 0] :=
  have h := beginConnect_first_success false fresh
    [Candidate.refused 3 10, Candidate.accepted 3 11, Candidate.accepted 3 12] 2
    (Candidate.accepted 3 11) (by decide) (by decide) (by decide) (by decide) (by decide)
    (by decide) (by decide)
  ⟨by decide, by decide, h.1, h.2.2.2.2.1⟩

/-! ### C2: when every candidate fails, the last failure is raised -/

theorem tryConnectLoop_all_fail :
    ∀ (rest : List Candidate) (p : Candidate) (s : TcpSocketImpl),
      s.fd = -1 → s.isConnected = false → (∀ q ∈ p :: rest, FailsAtOnce q) →
      (tryConnectLoop p rest s).1 =
        (failureErrno ((p :: rest).getLast (List.cons_ne_nil p rest)),
         some (failureCall ((p :: rest).getLast (List.cons_ne_nil p rest)))) ∧
      (tryConnectLoop p rest s).2.addrInfoPtr = [] ∧
      (tryConnectLoop p rest s).2.fd = -1 ∧
      (tryConnectLoop p rest s).2.isConnected = false ∧
      (tryConnectLoop p rest s).2.os.sockets = s.os.sockets ∧
      (tryConnectLoop p rest s).2.os.trace = s.os.trace ++ (p :: rest).flatMap failedEvents := by
  intro rest
  induction rest with
  | nil =>
    intro p s hfd hdis hall
    by_cases hs : p.socketRet < 0
    · rw [tryConnectLoop_socketFails_last p s hs]
      have h4 : ¬ 0 ≤ p.socketRet := by omega
      simp [afterSocketFail, World.socket, h4, hs, failureErrno, failureCall, failedEvents, hfd,
        hdis]
    · have h1 : 0 ≤ p.socketRet := by omega
      obtain ⟨h2, h3⟩ : p.connectRet ≠ 0 ∧ p.connectErrno ≠ EINPROGRESS := by
        rcases hall p (by simp) with h | h
        · exact absurd h hs
        · exact h
      rw [tryConnectLoop_connectFails_last p s h1 h2 h3]
      simp [afterConnectFail, World.socket, World.connect, World.close, h1, h2, hs, eraseFd,
        failureErrno, failureCall, failedEvents, failedConnectEvents]
  | cons q rest ih =>
    intro p s hfd hdis hall
    have hall' : ∀ x ∈ q :: rest, FailsAtOnce x := fun x hx => hall x (List.mem_cons_of_mem p hx)
    by_cases hs : p.socketRet < 0
    · rw [tryConnectLoop_socketFails_next p q rest s hs]
      have h4 : ¬ 0 ≤ p.socketRet := by omega
      have := ih q (afterSocketFail p (q :: rest) s) (by simp [afterSocketFail, hfd])
        (by simp [afterSocketFail, hdis]) hall'
      simpa [afterSocketFail, World.socket, h4, hs, failedEvents] using this
    · have h1 : 0 ≤ p.socketRet := by omega
      obtain ⟨h2, h3⟩ : p.connectRet ≠ 0 ∧ p.connectErrno ≠ EINPROGRESS := by
        rcases hall p (by simp) with h | h
        · exact absurd h hs
        · exact h
      rw [tryConnectLoop_connectFails_next p q rest s h1 h2 h3]
      have := ih q (afterConnectFail p (q :: rest) s) (by simp [afterConnectFail])
        (by simp [afterConnectFail]) hall'
      simpa [afterConnectFail, World.socket, World.connect, World.close, h1, h2, hs, eraseFd,
        failedEvents, failedConnectEvents] using this

/-- C2. On a disconnected socket, `beginConnect` with the empty candidate list
raises the IOError "invalid address information" and makes no call.  With a
non-empty list in which every candidate fails at once (the failing call of the
last one reporting a nonzero error code, as every failing system call does) it
raises the IOError made of the error code and the call name of the last
candidate's failure; afterwards the cursor is at the end of the list, the
socket is not connected, it holds no descriptor, the descriptors that are open
are those that were open before, and the calls made are those of one attempt
per candidate, in list order. -/
theorem beginConnect_all_fail (ndebug : Bool) (s : TcpSocketImpl)
    (hdis : s.isConnected = false) (hfd : s.fd = -1) :
    ((beginConnect ndebug s []).1 =
        Outcome.raised (Exception.IOError (Message.text "invalid address information")) ∧
      (beginConnect ndebug s []).2.fd = -1 ∧
      (beginConnect ndebug s []).2.isConnected = false ∧
      (beginConnect ndebug s []).2.os = s.os) ∧
    ∀ (cands : List Candidate) (hne : cands ≠ []),
      (∀ c ∈ cands, FailsAtOnce c) → failureErrno (cands.getLast hne) ≠ 0 →
      (beginConnect ndebug s cands).1 =
        Outcome.raised (Exception.IOError
          (Message.errnoString (failureErrno (cands.getLast hne))
            (failureCall (cands.getLast hne)))) ∧
      (beginConnect ndebug s cands).2.addrInfoPtr = [] ∧
      (beginConnect ndebug s cands).2.isConnected = false ∧
      (beginConnect ndebug s cands).2.fd = -1 ∧
      (beginConnect ndebug s cands).2.os.sockets = s.os.sockets ∧
      (beginConnect ndebug s cands).2.os.trace = s.os.trace ++ cands.flatMap failedEvents := by
  refine ⟨?_, ?_⟩
  · simp [beginConnect, hdis, tryConnect, hfd, andThen, checkPendingError]
  · intro cands hne hall herr
    obtain ⟨p, rest, rfl⟩ : ∃ p rest, cands = p :: rest := by
      cases cands with
      | nil => exact absurd rfl hne
      | cons a b => exact ⟨a, b, rfl⟩
    have key := tryConnectLoop_all_fail rest p
      { s with addrInfo := p :: rest, addrInfoPtr := p :: rest } hfd hdis hall
    rw [beginConnect_cons ndebug s p rest hdis hfd]
    generalize tryConnectLoop p rest { s with addrInfo := p :: rest, addrInfoPtr := p :: rest } = r
      at key ⊢
    obtain ⟨r1, r2⟩ := r
    obtain ⟨k1, k2, k3, k4, k5, k6⟩ := key
    simp only at k1 k2 k3 k4 k5 k6
    subst k1
    simp [checkPendingError, andThen, k2, k3, k4, k5, k6, herr]

/-- Witness of C2: a refused connect followed by a socket that cannot be
created. -/
theorem beginConnect_all_fail_witness :
    fresh.isConnected = false ∧ fresh.fd = -1 ∧
    (beginConnect false fresh [Candidate.refused 3 10, Candidate.noSocket 11]).1 =
      Outcome.raised (Exception.IOError (Message.errnoString 24 "socket")) ∧
    (beginConnect false fresh [Candidate.refused 3 10, Candidate.noSocket 11]).2.fd = -1 :=
  have h := (beginConnect_all_fail false fresh (by decide) (by decide)).2
    [Candidate.refused 3 10, Candidate.noSocket 11] (by decide) (by decide) (by decide)
  ⟨by decide, by decide, h.1, h.2.2.2.1⟩

/-! ### C3: raising exits of `endConnect` -/

/-- Every error that leaves `endConnect` after the pending-error check at its
entry passed finds the descriptor closed. -/
theorem endConnect_raise_closes (ndebug : Bool) (s : TcpSocketImpl) (e : Exception)
    (hres : s.connectResult.2 = none) (hr : (endConnect ndebug s).1 = Outcome.raised e) :
    (endConnect ndebug s).2.fd = -1 ∧ (endConnect ndebug s).2.isConnected = false := by
  obtain ⟨e1, e2, e3, e4, e5, e6⟩ := entered_fields s
  rw [endConnect_entered, checkPendingError_none (entered s) (by rw [e4]; exact hres)] at hr ⊢
  simp only [andThen] at hr ⊢
  by_cases hc : (entered s).isConnected = true
  · simp [hc] at hr
  · simp only [hc] at hr ⊢
    generalize endConnectLoop ndebug ((entered s).addrInfoPtr.length + 1) (entered s) = r at hr ⊢
    obtain ⟨o, s3⟩ := r
    cases o <;> simp at hr ⊢
    exact ⟨connecting_close_fd s3, connecting_close_isConnected s3⟩

/-- An error pending at the entry of `endConnect` is raised with the descriptor
as it was. -/
theorem endConnect_pending_keeps_descriptor (ndebug : Bool) (s : TcpSocketImpl) (err : Int)
    (fn : String) (hres : s.connectResult = (err, some fn)) (herr : err ≠ 0) :
    (endConnect ndebug s).1 = Outcome.raised (Exception.IOError (Message.errnoString err fn)) ∧
    (endConnect ndebug s).2.fd = s.fd ∧ (endConnect ndebug s).2.os = s.os := by
  obtain ⟨e1, e2, e3, e4, e5, e6⟩ := entered_fields s
  rw [endConnect_entered]
  have h : checkPendingError (entered s) =
      (Outcome.raised (Exception.IOError (Message.errnoString err fn)),
       { entered s with connectResult := (0, none) }) := by
    unfold checkPendingError
    rw [e4, hres]
    simp [herr]
  rw [h]
  simp [andThen, e1, e5]

/-- C3 (the code departs from the claim). The connect of the only candidate is
in progress on descriptor 5; `checkPollEvent` on a writable event finds the
socket error status 111, records the failure `(111, "connect")` and leaves the
descriptor open; `endConnect` then raises that error from the pending-error
check at its entry, and when the error leaves `endConnect` descriptor 5 is
still held by the socket and still open. -/
theorem endConnect_raises_with_descriptor_open :
    (beginConnect false fresh [Candidate.pending 5 10 true 111]).1 = Outcome.ok false ∧
    (checkPollEvent false noBase (beginConnect false fresh [Candidate.pending 5 10 true 111]).2
        (PollFd.result 5 POLLOUT)).1 = Outcome.ok true ∧
    (checkPollEvent false noBase (beginConnect false fresh [Candidate.pending 5 10 true 111]).2
        (PollFd.result 5 POLLOUT)).2.connectResult = (111, some "connect") ∧
    (endConnect false
      (checkPollEvent false noBase (beginConnect false fresh [Candidate.pending 5 10 true 111]).2
        (PollFd.result 5 POLLOUT)).2).1 =
      Outcome.raised (Exception.IOError (Message.errnoString 111 "connect")) ∧
    (endConnect false
      (checkPollEvent false noBase (beginConnect false fresh [Candidate.pending 5 10 true 111]).2
        (PollFd.result 5 POLLOUT)).2).2.fd = 5 ∧
    (endConnect false
      (checkPollEvent false noBase (beginConnect false fresh [Candidate.pending 5 10 true 111]).2
        (PollFd.result 5 POLLOUT)).2).2.os.openFds = [5] := by
  decide

/-! ### C4: every candidate in progress, every wait timing out -/

theorem endConnectLoop_all_time_out (ndebug : Bool) :
    ∀ (rest : List Candidate) (c : Candidate) (s : TcpSocketImpl) (fuel : Nat)
      (t : List (Int × Candidate)),
      rest.length + 1 ≤ fuel → s.addrInfoPtr = c :: rest → s.fd = c.socketRet →
      s.isConnected = false → s.os.sockets = (c.socketRet, c) :: t →
      (∀ q ∈ c :: rest, TimesOut q) →
      (endConnectLoop ndebug fuel s).1 = Outcome.raised Exception.IOTimeout ∧
      (close (endConnectLoop ndebug fuel s).2).addrInfoPtr = [] ∧
      (close (endConnectLoop ndebug fuel s).2).isConnected = false ∧
      (close (endConnectLoop ndebug fuel s).2).fd = -1 ∧
      (close (endConnectLoop ndebug fuel s).2).os.sockets = t ∧
      (close (endConnectLoop ndebug fuel s).2).os.trace =
        s.os.trace ++ [Event.poll c.socketRet, Event.close c.socketRet] ++
          rest.flatMap timedOutEvents := by
  intro rest
  induction rest with
  | nil =>
    intro c s fuel t hfuel hptr hfd hdis hsock hall
    obtain ⟨h1, h2, h3, h4⟩ := hall c (by simp)
    obtain ⟨n, rfl⟩ : ∃ n, fuel = n + 1 := ⟨fuel - 1, by simp at hfuel; omega⟩
    have h5 : c.socketRet ≠ -1 := by omega
    rw [endConnectLoop]
    simp [wait, hfd, hsock, findFd, h4, advance, World.emit, hptr, close, baseClose, h5,
      World.close, eraseFd]
  | cons q rest ih =>
    intro c s fuel t hfuel hptr hfd hdis hsock hall
    obtain ⟨h1, h2, h3, h4⟩ := hall c (by simp)
    obtain ⟨g1, g2, g3, g4⟩ := hall q (by simp)
    obtain ⟨n, rfl⟩ : ∃ n, fuel = n + 1 := ⟨fuel - 1, by simp at hfuel; omega⟩
    have h5 : c.socketRet ≠ -1 := by omega
    have hstep : endConnectLoop ndebug (n + 1) s =
        endConnectLoop ndebug n (afterTimeout q rest s) := by
      rw [endConnectLoop]
      simp [wait, hfd, hsock, findFd, h4, advance, World.emit, hptr, endConnectRetry, tryConnect,
        close, baseClose, h5, andThen, tryConnectLoop_inProgress q rest _ g1 g2 g3, attempted,
        checkPendingError, hdis, afterTimeout]
    rw [hstep]
    have := ih q (afterTimeout q rest s) n t (by simp at hfuel ⊢; omega)
      (by simp [afterTimeout, attempted, close, baseClose, hfd, h5])
      (by simp [afterTimeout, attempted])
      (by simp [afterTimeout, attempted, close, baseClose])
      (by simp [afterTimeout, attempted, close, baseClose, hfd, h5, World.socket, World.connect,
            World.close, World.emit, g1, g2, hsock, eraseFd])
      (fun x hx => hall x (List.mem_cons_of_mem c hx))
    simpa [afterTimeout, attempted, close, baseClose, hfd, h5, World.socket, World.connect, World.close,
      World.emit, g1, g2, hsock, eraseFd, timedOutEvents] using this

/-- C4. Let the list be non-empty, the socket of every candidate be created,
every connect report in-progress and every wait for writability time out.  On
a disconnected socket `beginConnect` returns false and leaves the socket
connecting (not connected, holding the open descriptor of the first candidate,
the cursor on it); the `endConnect` that follows raises IOTimeout, and after it
the descriptor is closed, the socket is not connected, the descriptors that are
open are those that were open before, and the calls of the two together are
socket, connect, wait, close once for each candidate, in list order. -/
theorem connect_all_time_out (ndebug : Bool) (s : TcpSocketImpl) (cands : List Candidate)
    (hne : cands ≠ []) (hdis : s.isConnected = false) (hfd : s.fd = -1)
    (hall : ∀ c ∈ cands, TimesOut c) :
    ((beginConnect ndebug s cands).1 = Outcome.ok false ∧
      (beginConnect ndebug s cands).2.isConnected = false ∧
      (beginConnect ndebug s cands).2.fd = (cands.head hne).socketRet ∧
      (beginConnect ndebug s cands).2.addrInfoPtr = cands ∧
      (beginConnect ndebug s cands).2.os.sockets =
        ((cands.head hne).socketRet, cands.head hne) :: s.os.sockets) ∧
    (endConnect ndebug (beginConnect ndebug s cands).2).1 =
      Outcome.raised Exception.IOTimeout ∧
    (endConnect ndebug (beginConnect ndebug s cands).2).2.fd = -1 ∧
    (endConnect ndebug (beginConnect ndebug s cands).2).2.isConnected = false ∧
    (endConnect ndebug (beginConnect ndebug s cands).2).2.addrInfoPtr = [] ∧
    (endConnect ndebug (beginConnect ndebug s cands).2).2.os.sockets = s.os.sockets ∧
    (endConnect ndebug (beginConnect ndebug s cands).2).2.os.trace =
      s.os.trace ++ cands.flatMap timedOutEvents := by
  obtain ⟨c, rest, rfl⟩ : ∃ p rest, cands = p :: rest := by
    cases cands with
    | nil => exact absurd rfl hne
    | cons a b => exact ⟨a, b, rfl⟩
  obtain ⟨h1, h2, h3, h4⟩ := hall c (by simp)
  have hb : beginConnect ndebug s (c :: rest) =
      (Outcome.ok false, { attempted c { s with addrInfo := c :: rest, addrInfoPtr := c :: rest }
        with connectResult := (0, none) }) := by
    rw [beginConnect_cons ndebug s c rest hdis hfd, tryConnectLoop_inProgress c rest _ h1 h2 h3]
    simp [checkPendingError, andThen, attempted, hdis]
  rw [hb]
  refine ⟨by simp [attempted, hdis, World.socket, World.connect, h1, h2], ?_⟩
  rw [endConnect_loop ndebug _ (by simp) (by simp [attempted, hdis])]
  obtain ⟨e1, e2, e3, e4, e5, e6⟩ := entered_fields
    { attempted c { s with addrInfo := c :: rest, addrInfoPtr := c :: rest }
        with connectResult := (0, none) }
  have key := endConnectLoop_all_time_out ndebug rest c
    (entered { attempted c { s with addrInfo := c :: rest, addrInfoPtr := c :: rest }
        with connectResult := (0, none) }) (rest.length + 1 + 1) s.os.sockets (by omega)
    (by rw [e3]; simp [attempted]) (by rw [e1]; simp [attempted])
    (by rw [e2]; simp [attempted, hdis])
    (by rw [e5]; simp [attempted, World.socket, World.connect, h1, h2]) hall
  rw [e5] at key
  simp only [attempted, List.length_cons] at key ⊢
  generalize endConnectLoop ndebug (rest.length + 1 + 1) _ = r at key ⊢
  obtain ⟨r1, r2⟩ := r
  obtain ⟨k1, k2, k3, k4, k5, k6⟩ := key
  simp only at k1
  subst k1
  refine ⟨rfl, k4, k3, k2, k5, ?_⟩
  rw [k6]
  simp [World.socket, World.connect, h1, h2, timedOutEvents]

/-- Witness of C4: two candidates that stay in progress until the wait times
out. -/
theorem connect_all_time_out_witness :
    (∀ c ∈ [Candidate.pending 3 10 false 0, Candidate.pending 3 11 false 0], TimesOut c) ∧
    (endConnect false
      (beginConnect false fresh
        [Candidate.pending 3 10 false 0, Candidate.pending 3 11 false 0]).2).1 =
      Outcome.raised Exception.IOTimeout ∧
    (endConnect false
      (beginConnect false fresh
        [Candidate.pending 3 10 false 0, Candidate.pending 3 11 false 0]).2).2.fd = -1 :=
  have h := connect_all_time_out false fresh
    [Candidate.pending 3 10 false 0, Candidate.pending 3 11 false 0] (by decide) (by decide)
    (by decide) (by decide)
  ⟨by decide, h.2.1, h.2.2.1⟩

/-! ### C7: error condition with the cursor on the last candidate -/

/-- C7 as stated fails: the connect of the only candidate is in progress;
`checkPollEvent` on an error condition notifies and returns true, but no
failure is recorded, and the pending-error check that follows raises
nothing. -/
theorem checkPollEvent_error_records_nothing :
    (beginConnect false fresh [Candidate.pending 5 10 true 111]).2.isConnected = false ∧
    (beginConnect false fresh [Candidate.pending 5 10 true 111]).2.addrInfoPtr =
      [Candidate.pending 5 10 true 111] ∧
    (checkPollEvent false noBase (beginConnect false fresh [Candidate.pending 5 10 true 111]).2
        (PollFd.result 5 POLLERR)).1 = Outcome.ok true ∧
    (checkPollEvent false noBase (beginConnect false fresh [Candidate.pending 5 10 true 111]).2
        (PollFd.result 5 POLLERR)).2.connectResult = (0, none) ∧
    (checkPendingError
      (checkPollEvent false noBase (beginConnect false fresh [Candidate.pending 5 10 true 111]).2
        (PollFd.result 5 POLLERR)).2).1 = Outcome.ok () := by
  decide

/-- C7, amended. For every socket that is not connected and whose cursor is on
the last candidate, `checkPollEvent` on a slot whose result flags contain the
error condition notifies `connected` exactly once, returns true and changes
nothing else: the pending error is left as it was (this call records no
failure), the descriptor stays open and the cursor stays on the last
candidate. -/
theorem checkPollEvent_error_on_last (ndebug : Bool)
    (base : TcpSocketImpl → PollFd → Outcome Bool × TcpSocketImpl)
    (s : TcpSocketImpl) (pfd : PollFd) (c : Candidate)
    (hdis : s.isConnected = false) (hlast : s.addrInfoPtr = [c])
    (herr : pfd.revents &&& POLLERR ≠ 0) :
    checkPollEvent ndebug base s pfd =
      (Outcome.ok true, { s with os := s.os.emit Event.connected }) := by
  simp [checkPollEvent, hdis, hlast, herr]

/-- Witness of C7, amended: the socket of the counterexample. -/
theorem checkPollEvent_error_on_last_witness :
    (beginConnect false fresh [Candidate.pending 5 10 true 111]).2.isConnected = false ∧
    (PollFd.result 5 POLLERR).revents &&& POLLERR ≠ 0 ∧
    checkPollEvent false noBase (beginConnect false fresh [Candidate.pending 5 10 true 111]).2
        (PollFd.result 5 POLLERR) =
      (Outcome.ok true,
       { (beginConnect false fresh [Candidate.pending 5 10 true 111]).2 with
         os := (beginConnect false fresh [Candidate.pending 5 10 true 111]).2.os.emit
                 Event.connected }) :=
  ⟨by decide, by decide,
   checkPollEvent_error_on_last false noBase
     (beginConnect false fresh [Candidate.pending 5 10 true 111]).2 (PollFd.result 5 POLLERR)
     (Candidate.pending 5 10 true 111) (by decide) (by decide) (by decide)⟩

/-- After the notification of C7 the failure is found by `endConnect`: with no
error pending, the cursor on the last candidate and the connect in flight
failed (the wait returns at once, the socket error status is nonzero),
`endConnect` raises the IOError of that status and closes the descriptor. -/
theorem endConnect_finds_socket_error (ndebug : Bool) (s : TcpSocketImpl) (c0 c : Candidate)
    (hres : s.connectResult.2 = none) (hdis : s.isConnected = false)
    (hptr : s.addrInfoPtr = [c0]) (hfd : findFd s.fd s.os.sockets = some c)
    (hav : c.waitAvail = true) (hret : c.getsockoptRet = 0) (herr : c.sockerr ≠ 0) :
    (endConnect ndebug s).1 =
      Outcome.raised (Exception.IOError (Message.errnoString c.sockerr "connect")) ∧
    (endConnect ndebug s).2.fd = -1 ∧ (endConnect ndebug s).2.isConnected = false := by
  obtain ⟨e1, e2, e3, e4, e5, e6⟩ := entered_fields s
  have hl : endConnectLoop ndebug (s.addrInfoPtr.length + 1) (entered s) =
      (Outcome.raised (Exception.IOError (Message.errnoString c.sockerr "connect")),
       { entered s with addrInfoPtr := [],
                        os := (s.os.emit (Event.poll s.fd)).getsockopt s.fd 0
                                c.getsockoptErrno }) := by
    rw [endConnectLoop]
    simp [wait, checkConnect, e1, e2, e3, e5, hfd, hav, hret, herr, andThen, advance, hptr, hdis,
      World.getsockopt, World.emit]
  rw [endConnect_loop ndebug s hres hdis, hl]
  exact ⟨rfl, connecting_close_fd _, rfl⟩

/-! ### C10: the descriptor at the entry of `tryConnect` -/

/-- On an error condition `checkPollEvent` never trips the `assert` of
`tryConnect`: the descriptor is closed before the next candidate is tried. -/
theorem checkPollEvent_error_no_abort (ndebug : Bool)
    (base : TcpSocketImpl → PollFd → Outcome Bool × TcpSocketImpl)
    (s : TcpSocketImpl) (pfd : PollFd)
    (hdis : s.isConnected = false) (herr : pfd.revents &&& POLLERR ≠ 0) :
    (∃ b, (checkPollEvent ndebug base s pfd).1 = Outcome.ok b) ∨
    (s.addrInfoPtr = [] ∧ (checkPollEvent ndebug base s pfd).1 = Outcome.undefined) := by
  unfold checkPollEvent
  rw [if_neg (by simp [hdis]), if_pos herr]
  cases hp : s.addrInfoPtr with
  | nil => exact Or.inr ⟨rfl, rfl⟩
  | cons c ptr =>
    refine Or.inl ?_
    cases ptr with
    | nil => exact ⟨true, by simp⟩
    | cons q rest =>
      simp only [List.isEmpty_cons, Bool.false_eq_true, if_false]
      rw [tryConnect_close ndebug _ q rest rfl]
      exact ⟨_, rfl⟩

/-- C10 (the code departs from the claim). The connect of the first of two
candidates is in progress on descriptor 5 and a writable event finds the socket
error status 111.  `checkPollEvent` moves the cursor on and calls `tryConnect`
while descriptor 5 is still held: the `assert` of `tryConnect` fails; in a
build with `NDEBUG` the socket of the second candidate (descriptor 6) replaces
descriptor 5, which stays open and is never closed.  On an error condition, in
the same state, descriptor 5 is closed before the socket of the second
candidate is created. -/
theorem checkPollEvent_writable_retry_keeps_descriptor :
    (beginConnect false fresh
        [Candidate.pending 5 10 true 111, Candidate.accepted 6 11]).2.fd = 5 ∧
    checkPollEvent false noBase
        (beginConnect false fresh
          [Candidate.pending 5 10 true 111, Candidate.accepted 6 11]).2
        (PollFd.result 5 POLLOUT) =
      (Outcome.aborted "_fd == -1",
       { (beginConnect false fresh
          [Candidate.pending 5 10 true 111, Candidate.accepted 6 11]).2 with
         addrInfoPtr := [Candidate.accepted 6 11]
         os := (beginConnect false fresh
          [Candidate.pending 5 10 true 111, Candidate.accepted 6 11]).2.os.emit
            (Event.getsockopt 5) }) ∧
    (checkPollEvent true noBase
        (beginConnect false fresh
          [Candidate.pending 5 10 true 111, Candidate.accepted 6 11]).2
        (PollFd.result 5 POLLOUT)).1 = Outcome.ok true ∧
    (checkPollEvent true noBase
        (beginConnect false fresh
          [Candidate.pending 5 10 true 111, Candidate.accepted 6 11]).2
        (PollFd.result 5 POLLOUT)).2.fd = 6 ∧
    (checkPollEvent true noBase
        (beginConnect false fresh
          [Candidate.pending 5 10 true 111, Candidate.accepted 6 11]).2
        (PollFd.result 5 POLLOUT)).2.os.openFds = [6, 5] ∧
    (checkPollEvent true noBase
        (beginConnect false fresh
          [Candidate.pending 5 10 true 111, Candidate.accepted 6 11]).2
        (PollFd.result 5 POLLOUT)).2.os.trace =
      [Event.socket 2 5, Event.connect 5 10 (-1), Event.getsockopt 5, Event.socket 2 6,
       Event.connect 6 11 0, Event.connected] ∧
    (checkPollEvent false noBase
        (beginConnect false fresh
          [Candidate.pending 5 10 true 111, Candidate.accepted 6 11]).2
        (PollFd.result 5 POLLERR)).2.os.trace =
      [Event.socket 2 5, Event.connect 5 10 (-1), Event.close 5, Event.socket 2 6,
       Event.connect 6 11 0, Event.connected] := by
  decide

/-! ### C11: the outcomes of `checkPollEvent` -/

theorem notified_append (t u : List Event) : notified (t ++ u) = notified t + notified u := by
  simp [notified]

theorem armed_append (t u : List Event) : armed (t ++ u) = armed t + armed u := by
  simp [armed]

/-- What the loop of `tryConnect` leaves on a socket that was not connected:
no notification, no slot armed, and the socket connected, or a connect in
flight on an open descriptor, or a failure with a call name. -/
theorem tryConnectLoop_outcomes :
    ∀ (rest : List Candidate) (c : Candidate) (s : TcpSocketImpl),
      s.addrInfoPtr = c :: rest → s.isConnected = false →
      notified (tryConnectLoop c rest s).2.os.trace = notified s.os.trace ∧
      armed (tryConnectLoop c rest s).2.os.trace = armed s.os.trace ∧
      (((tryConnectLoop c rest s).1 = (0, none) ∧
          (tryConnectLoop c rest s).2.isConnected = true) ∨
        ((tryConnectLoop c rest s).1 = (0, none) ∧
          (tryConnectLoop c rest s).2.isConnected = false ∧
          (tryConnectLoop c rest s).2.addrInfoPtr ≠ [] ∧
          (findFd (tryConnectLoop c rest s).2.fd (tryConnectLoop c rest s).2.os.sockets).isSome
            = true) ∨
        (∃ e fn, (tryConnectLoop c rest s).1 = (e, some fn) ∧
          (tryConnectLoop c rest s).2.isConnected = false)) := by
  intro rest
  induction rest with
  | nil =>
    intro c s hptr hdis
    by_cases hs : c.socketRet < 0
    · have h4 : ¬ 0 ≤ c.socketRet := by omega
      rw [tryConnectLoop_socketFails_last c s hs]
      refine ⟨?_, ?_, Or.inr (Or.inr ⟨_, _, rfl, ?_⟩)⟩ <;>
        simp [afterSocketFail, World.socket, h4, notified, armed, isArming, hdis]
    · have h1 : 0 ≤ c.socketRet := by omega
      by_cases h2 : c.connectRet = 0
      · rw [tryConnectLoop_connected c [] s h1 h2]
        refine ⟨?_, ?_, Or.inl ⟨rfl, rfl⟩⟩ <;>
          simp [attempted, World.socket, World.connect, h1, h2, notified, armed, isArming]
      · by_cases h3 : c.connectErrno = EINPROGRESS
        · rw [tryConnectLoop_inProgress c [] s h1 h2 h3]
          refine ⟨?_, ?_, Or.inr (Or.inl ⟨rfl, ?_, ?_, ?_⟩)⟩ <;>
            simp [attempted, World.socket, World.connect, h1, h2, notified, armed, isArming,
              hdis, hptr, findFd]
        · rw [tryConnectLoop_connectFails_last c s h1 h2 h3]
          refine ⟨?_, ?_, Or.inr (Or.inr ⟨_, _, rfl, ?_⟩)⟩ <;>
            simp [afterConnectFail, World.socket, World.connect, World.close, h1, h2, notified,
              armed, isArming]
  | cons q rest ih =>
    intro c s hptr hdis
    by_cases hs : c.socketRet < 0
    · have h4 : ¬ 0 ≤ c.socketRet := by omega
      rw [tryConnectLoop_socketFails_next c q rest s hs]
      have := ih q (afterSocketFail c (q :: rest) s) rfl (by simp [afterSocketFail, hdis])
      simpa [afterSocketFail, World.socket, h4, notified, armed, isArming] using this
    · have h1 : 0 ≤ c.socketRet := by omega
      by_cases h2 : c.connectRet = 0
      · rw [tryConnectLoop_connected c _ s h1 h2]
        refine ⟨?_, ?_, Or.inl ⟨rfl, rfl⟩⟩ <;>
          simp [attempted, World.socket, World.connect, h1, h2, notified, armed, isArming]
      · by_cases h3 : c.connectErrno = EINPROGRESS
        · rw [tryConnectLoop_inProgress c _ s h1 h2 h3]
          refine ⟨?_, ?_, Or.inr (Or.inl ⟨rfl, ?_, ?_, ?_⟩)⟩ <;>
            simp [attempted, World.socket, World.connect, h1, h2, notified, armed, isArming,
              hdis, hptr, findFd]
        · rw [tryConnectLoop_connectFails_next c q rest s h1 h2 h3]
          have := ih q (afterConnectFail c (q :: rest) s) rfl (by simp [afterConnectFail])
          simpa [afterConnectFail, World.socket, World.connect, World.close, h1, h2, notified,
            armed, isArming] using this

theorem close_counts (s : TcpSocketImpl) :
    notified (close s).os.trace = notified s.os.trace ∧
    armed (close s).os.trace = armed s.os.trace := by
  unfold close baseClose
  split <;> simp [World.close, notified, armed, isArming]

theorem notified_connected : notified [Event.connected] = 1 := rfl

theorem armed_connected : armed [Event.connected] = 0 := rfl

theorem notified_initializePoll (fd : Int) : notified [Event.initializePoll fd] = 0 := rfl

theorem armed_initializePoll (fd : Int) : armed [Event.initializePoll fd] = 1 := rfl

theorem outcomes_exclusive (s t : TcpSocketImpl) :
    ¬ (EndsConnected s t ∧ EndsFailed s t) ∧ ¬ (EndsConnected s t ∧ EndsInFlight s t) ∧
    ¬ (EndsFailed s t ∧ EndsInFlight s t) := by
  refine ⟨?_, ?_, ?_⟩
  · rintro ⟨⟨h1, _, _⟩, ⟨h2, _, _⟩⟩
    rw [h1] at h2
    exact absurd h2 (by decide)
  · rintro ⟨⟨h1, _, _⟩, ⟨h2, _⟩⟩
    rw [h1] at h2
    exact absurd h2 (by decide)
  · rintro ⟨⟨_, h1, _⟩, ⟨_, _, _, _, h2, _⟩⟩
    omega

/-- On an error condition with the cursor on a candidate, `checkPollEvent`
ends in one of the three outcomes. -/
theorem checkPollEvent_error_outcomes (ndebug : Bool)
    (base : TcpSocketImpl → PollFd → Outcome Bool × TcpSocketImpl)
    (s : TcpSocketImpl) (pfd : PollFd)
    (hdis : s.isConnected = false) (hptr : s.addrInfoPtr ≠ [])
    (herr : pfd.revents &&& POLLERR ≠ 0) :
    (∃ b, (checkPollEvent ndebug base s pfd).1 = Outcome.ok b) ∧
    (EndsConnected s (checkPollEvent ndebug base s pfd).2 ∨
      (EndsFailed s (checkPollEvent ndebug base s pfd).2 ∧
        ((checkPollEvent ndebug base s pfd).2.connectResult.2.isSome = true ∨
          (s.addrInfoPtr.length = 1 ∧
            (checkPollEvent ndebug base s pfd).2.connectResult = s.connectResult))) ∨
      EndsInFlight s (checkPollEvent ndebug base s pfd).2) := by
  unfold checkPollEvent
  rw [if_neg (by simp [hdis]), if_pos herr]
  cases hp : s.addrInfoPtr with
  | nil => exact absurd hp hptr
  | cons c0 ptr =>
    cases ptr with
    | nil =>
      refine ⟨⟨true, by simp⟩, Or.inr (Or.inl ⟨?_, Or.inr ⟨rfl, by simp⟩⟩)⟩
      simp [EndsFailed, hdis, World.emit, notified_append, armed_append, notified_connected,
        armed_connected]
    | cons q rest =>
      simp only [List.isEmpty_cons, Bool.false_eq_true, if_false]
      rw [tryConnect_close ndebug _ q rest rfl]
      obtain ⟨n1, n2, hout⟩ := tryConnectLoop_outcomes rest q
        (close { s with addrInfoPtr := q :: rest }) (by rw [close_ptr])
        (connecting_close_isConnected _)
      obtain ⟨k1, k2⟩ := close_counts { s with addrInfoPtr := q :: rest }
      rw [k1] at n1
      rw [k2] at n2
      simp only at n1 n2
      generalize tryConnectLoop q rest (close { s with addrInfoPtr := q :: rest }) = r
        at n1 n2 hout ⊢
      obtain ⟨r1, r2⟩ := r
      simp only at n1 n2 hout
      simp only [andThen]
      refine ⟨⟨_, rfl⟩, ?_⟩
      rcases hout with ⟨h1, h2⟩ | ⟨h1, h2, h3, h4⟩ | ⟨e, fn, h1, h2⟩
      · subst h1
        refine Or.inl ?_
        simp [EndsConnected, h2, World.emit, notified_append, armed_append, n1, n2,
          notified_connected, armed_connected]
      · subst h1
        refine Or.inr (Or.inr ?_)
        simp [EndsInFlight, h2, h3, h4, initializePoll, initWait, baseInitWait, World.emit,
          notified_append, armed_append, n1, n2, notified_initializePoll, armed_initializePoll]
      · subst h1
        refine Or.inr (Or.inl ⟨?_, Or.inl ?_⟩)
        · simp [EndsFailed, h2, World.emit, notified_append, armed_append, n1, n2,
            notified_connected, armed_connected]
        · simp [h2]

/-- On a writable condition without error condition, with a connect in flight
on the descriptor of `c`: what `checkPollEvent` does when the socket error
status cannot be read, when it is zero, and when it is nonzero with the cursor
on the last candidate. -/
theorem checkPollEvent_writable_outcomes (ndebug : Bool)
    (base : TcpSocketImpl → PollFd → Outcome Bool × TcpSocketImpl)
    (s : TcpSocketImpl) (pfd : PollFd) (c : Candidate)
    (hdis : s.isConnected = false) (hnoerr : pfd.revents &&& POLLERR = 0)
    (hout : pfd.revents &&& POLLOUT ≠ 0) (hfd : findFd s.fd s.os.sockets = some c) :
    (c.getsockoptRet ≠ 0 →
      (checkPollEvent ndebug base s pfd).1 =
        Outcome.raised (Exception.SystemError c.getsockoptErrno "getsockopt") ∧
      (checkPollEvent ndebug base s pfd).2.fd = -1 ∧
      (checkPollEvent ndebug base s pfd).2.isConnected = false ∧
      notified (checkPollEvent ndebug base s pfd).2.os.trace = notified s.os.trace ∧
      armed (checkPollEvent ndebug base s pfd).2.os.trace = armed s.os.trace) ∧
    (c.getsockoptRet = 0 → c.sockerr = 0 →
      (checkPollEvent ndebug base s pfd).1 = Outcome.ok true ∧
      EndsConnected s (checkPollEvent ndebug base s pfd).2) ∧
    (c.getsockoptRet = 0 → c.sockerr ≠ 0 → s.addrInfoPtr.length = 1 →
      (checkPollEvent ndebug base s pfd).1 = Outcome.ok true ∧
      EndsFailed s (checkPollEvent ndebug base s pfd).2 ∧
      (checkPollEvent ndebug base s pfd).2.connectResult = (c.sockerr, some "connect")) := by
  unfold checkPollEvent
  rw [if_neg (by simp [hdis]), if_neg (by simp [hnoerr]), if_pos hout]
  refine ⟨fun hret => ?_, fun hret herr => ?_, fun hret herr hlen => ?_⟩
  · have hc : checkConnect s =
        (Outcome.raised (Exception.SystemError c.getsockoptErrno "getsockopt"),
         close { s with os := s.os.getsockopt s.fd c.getsockoptRet c.getsockoptErrno }) := by
      simp [checkConnect, hfd, hret, World.getsockopt]
    rw [hc]
    obtain ⟨k1, k2⟩ := close_counts
      { s with os := s.os.getsockopt s.fd c.getsockoptRet c.getsockoptErrno }
    refine ⟨rfl, connecting_close_fd _, rfl, ?_, ?_⟩
    · simp only [andThen]
      rw [k1]
      simp [World.getsockopt, hret, notified_append]
      rfl
    · simp only [andThen]
      rw [k2]
      simp [World.getsockopt, hret, armed_append]
      rfl
  · have hc : checkConnect s =
        (Outcome.ok 0,
         { s with isConnected := true, os := s.os.emit (Event.getsockopt s.fd) }) := by
      simp [checkConnect, hfd, hret, herr, World.getsockopt, World.emit]
    rw [hc]
    refine ⟨rfl, rfl, ?_, ?_⟩
    · simp [andThen, World.emit, notified_append, notified_connected]
      rfl
    · simp [andThen, World.emit, armed_append, armed_connected]
      rfl
  · have hc : checkConnect s =
        (Outcome.ok c.sockerr, { s with os := s.os.emit (Event.getsockopt s.fd) }) := by
      simp [checkConnect, hfd, hret, herr, World.getsockopt, World.emit]
    obtain ⟨c0, hp⟩ : ∃ c0, s.addrInfoPtr = [c0] := List.length_eq_one.mp hlen
    rw [hc]
    simp only [andThen, hdis, Bool.false_eq_true, if_false, advance, hp, List.isEmpty_nil,
      if_true]
    refine ⟨by simp, ⟨by simp, ?_, ?_⟩, by simp⟩
    · simp [World.emit, notified_append, notified_connected]
      rfl
    · simp [World.emit, armed_append, armed_connected]
      rfl

/-- The slip behind C10, seen from C11: in a build with `NDEBUG`, on a writable
event with nonzero socket error status and a candidate left whose connect is
refused, `tryConnect` produces the error `(111, "connect")` and `checkPollEvent`
returns false without any notification; when the connect of the candidate left
stays in progress it returns false without arming a poll slot for the new
descriptor.  With the `assert` compiled in the call is aborted. -/
theorem checkPollEvent_writable_retry_unnotified :
    (checkPollEvent true noBase
        (beginConnect true fresh [Candidate.pending 5 10 true 111, Candidate.refused 6 11]).2
        (PollFd.result 5 POLLOUT)).1 = Outcome.ok false ∧
    (checkPollEvent true noBase
        (beginConnect true fresh [Candidate.pending 5 10 true 111, Candidate.refused 6 11]).2
        (PollFd.result 5 POLLOUT)).2.connectResult = (111, some "connect") ∧
    notified (checkPollEvent true noBase
        (beginConnect true fresh [Candidate.pending 5 10 true 111, Candidate.refused 6 11]).2
        (PollFd.result 5 POLLOUT)).2.os.trace = 0 ∧
    (checkPollEvent true noBase
        (beginConnect true fresh
          [Candidate.pending 5 10 true 111, Candidate.pending 6 11 true 0]).2
        (PollFd.result 5 POLLOUT)).1 = Outcome.ok false ∧
    armed (checkPollEvent true noBase
        (beginConnect true fresh
          [Candidate.pending 5 10 true 111, Candidate.pending 6 11 true 0]).2
        (PollFd.result 5 POLLOUT)).2.os.trace = 0 ∧
    (checkPollEvent false noBase
        (beginConnect false fresh [Candidate.pending 5 10 true 111, Candidate.refused 6 11]).2
        (PollFd.result 5 POLLOUT)).1 = Outcome.aborted "_fd == -1" := by
  decide

/-- C11 as stated fails: with the connect of the only candidate in flight, an
error condition makes `checkPollEvent` notify `connected` once while the socket
is not connected, no error is pending and no slot is armed, which is none of
the three outcomes; and when `::getsockopt` fails on a writable event the call
raises SystemError("getsockopt") with no notification. -/
theorem checkPollEvent_outside_three_outcomes :
    (beginConnect false fresh [Candidate.pending 5 10 true 111]).2.isConnected = false ∧
    ¬ EndsConnected (beginConnect false fresh [Candidate.pending 5 10 true 111]).2
      (checkPollEvent false noBase (beginConnect false fresh [Candidate.pending 5 10 true 111]).2
        (PollFd.result 5 POLLERR)).2 ∧
    ¬ (EndsFailed (beginConnect false fresh [Candidate.pending 5 10 true 111]).2
        (checkPollEvent false noBase
          (beginConnect false fresh [Candidate.pending 5 10 true 111]).2
          (PollFd.result 5 POLLERR)).2 ∧
       (checkPollEvent false noBase
          (beginConnect false fresh [Candidate.pending 5 10 true 111]).2
          (PollFd.result 5 POLLERR)).2.connectResult.2.isSome = true) ∧
    ¬ EndsInFlight (beginConnect false fresh [Candidate.pending 5 10 true 111]).2
      (checkPollEvent false noBase (beginConnect false fresh [Candidate.pending 5 10 true 111]).2
        (PollFd.result 5 POLLERR)).2 ∧
    notified (checkPollEvent false noBase
        (beginConnect false fresh [Candidate.pending 5 10 true 111]).2
        (PollFd.result 5 POLLERR)).2.os.trace = 1 ∧
    (checkPollEvent false noBase (beginConnect false fresh [Candidate.unreadable 5 10]).2
        (PollFd.result 5 POLLOUT)).1 =
      Outcome.raised (Exception.SystemError 88 "getsockopt") ∧
    notified (checkPollEvent false noBase
        (beginConnect false fresh [Candidate.unreadable 5 10]).2
        (PollFd.result 5 POLLOUT)).2.os.trace = 0 := by
  decide

/-- C11, amended. For every socket that is not connected and whose cursor is on
a candidate.  On a slot whose result flags contain the error condition, one
call of `checkPollEvent` returns and ends in exactly one of three outcomes: (a)
the socket is connected and `connected` was notified exactly once; (b) the
socket is not connected, no slot was armed and `connected` was notified exactly
once, with a pending error set when the failure came from trying the candidates
left, and with the pending error left as it was when the cursor was on the last
candidate; (c) the connect of a later candidate is in flight on an open
descriptor, exactly one poll slot was armed, for that descriptor, no error is
pending and no notification was sent.  On a slot with the writable and without
the error condition, the connect in flight being that of `c`: when the socket
error status cannot be read the call raises SystemError("getsockopt") with the
descriptor closed and no notification; when the status is zero it returns true
in outcome (a); when the status is nonzero and the cursor is on the last
candidate it returns true in outcome (b) with the pending error
`(status, "connect")`.  The three outcomes exclude one another. -/
theorem checkPollEvent_outcomes (ndebug : Bool)
    (base : TcpSocketImpl → PollFd → Outcome Bool × TcpSocketImpl)
    (s : TcpSocketImpl) (pfd : PollFd)
    (hdis : s.isConnected = false) (hptr : s.addrInfoPtr ≠ []) :
    (pfd.revents &&& POLLERR ≠ 0 →
      (∃ b, (checkPollEvent ndebug base s pfd).1 = Outcome.ok b) ∧
      (EndsConnected s (checkPollEvent ndebug base s pfd).2 ∨
        (EndsFailed s (checkPollEvent ndebug base s pfd).2 ∧
          ((checkPollEvent ndebug base s pfd).2.connectResult.2.isSome = true ∨
            (s.addrInfoPtr.length = 1 ∧
              (checkPollEvent ndebug base s pfd).2.connectResult = s.connectResult))) ∨
        EndsInFlight s (checkPollEvent ndebug base s pfd).2)) ∧
    (pfd.revents &&& POLLERR = 0 → pfd.revents &&& POLLOUT ≠ 0 →
      ∀ c, findFd s.fd s.os.sockets = some c →
        (c.getsockoptRet ≠ 0 →
          (checkPollEvent ndebug base s pfd).1 =
            Outcome.raised (Exception.SystemError c.getsockoptErrno "getsockopt") ∧
          (checkPollEvent ndebug base s pfd).2.fd = -1 ∧
          (checkPollEvent ndebug base s pfd).2.isConnected = false ∧
          notified (checkPollEvent ndebug base s pfd).2.os.trace = notified s.os.trace ∧
          armed (checkPollEvent ndebug base s pfd).2.os.trace = armed s.os.trace) ∧
        (c.getsockoptRet = 0 → c.sockerr = 0 →
          (checkPollEvent ndebug base s pfd).1 = Outcome.ok true ∧
          EndsConnected s (checkPollEvent ndebug base s pfd).2) ∧
        (c.getsockoptRet = 0 → c.sockerr ≠ 0 → s.addrInfoPtr.length = 1 →
          (checkPollEvent ndebug base s pfd).1 = Outcome.ok true ∧
          EndsFailed s (checkPollEvent ndebug base s pfd).2 ∧
          (checkPollEvent ndebug base s pfd).2.connectResult = (c.sockerr, some "connect"))) ∧
    (∀ t, ¬ (EndsConnected s t ∧ EndsFailed s t) ∧ ¬ (EndsConnected s t ∧ EndsInFlight s t) ∧
      ¬ (EndsFailed s t ∧ EndsInFlight s t)) :=
  ⟨fun herr => checkPollEvent_error_outcomes ndebug base s pfd hdis hptr herr,
   fun hnoerr hout c hfd => checkPollEvent_writable_outcomes ndebug base s pfd c hdis hnoerr hout hfd,
   fun t => outcomes_exclusive s t⟩

/-- Witness of C11, amended: an error condition while a second candidate is left
whose connect stays in progress, and a writable event with socket error status
zero. -/
theorem checkPollEvent_outcomes_witness :
    EndsInFlight
      (beginConnect false fresh [Candidate.pending 5 10 true 111, Candidate.pending 6 11 true 0]).2
      (checkPollEvent false noBase
        (beginConnect false fresh
          [Candidate.pending 5 10 true 111, Candidate.pending 6 11 true 0]).2
        (PollFd.result 5 POLLERR)).2 ∧
    EndsConnected (beginConnect false fresh [Candidate.pending 5 10 true 0]).2
      (checkPollEvent false noBase (beginConnect false fresh [Candidate.pending 5 10 true 0]).2
        (PollFd.result 5 POLLOUT)).2 :=
  have h1 := (checkPollEvent_outcomes false noBase
    (beginConnect false fresh [Candidate.pending 5 10 true 111, Candidate.pending 6 11 true 0]).2
    (PollFd.result 5 POLLERR) (by decide) (by decide)).1 (by decide)
  have h2 := ((checkPollEvent_outcomes false noBase
    (beginConnect false fresh [Candidate.pending 5 10 true 0]).2
    (PollFd.result 5 POLLOUT) (by decide) (by decide)).2.1 (by decide) (by decide)
    (Candidate.pending 5 10 true 0) (by decide)).2.1 (by decide) (by decide)
  ⟨h1.2.resolve_left (by decide) |>.resolve_left (by decide), h2.2⟩

end TcpSocketImpl

namespace TcpServerImpl

/-! ### C5: `::listen` fails -/

theorem listenLoop_passedOver (backlog : Int) (p : ListenCandidate) (rest : List ListenCandidate)
    (s : TcpServerImpl) (h : PassedOver p) :
    listenLoop backlog (p :: rest) s =
      listenLoop backlog rest (afterPassedOver p s) := by
  by_cases hs : p.socketRet < 0
  · have h4 : ¬ 0 ≤ p.socketRet := by omega
    rw [listenLoop]
    simp [create, World.socket, hs, h4, passedOverEvents, afterPassedOver]
  · have h1 : 0 ≤ p.socketRet := by omega
    obtain ⟨h2, h3⟩ : ¬ p.setsockoptRet < 0 ∧ p.bindRet ≠ 0 := by
      rcases h with h | h
      · exact absurd h hs
      · exact h
    rw [listenLoop]
    simp [create, World.socket, World.setsockopt, World.bind, hs, h1, h2, h3, passedOverEvents,
      afterPassedOver]

theorem listenLoop_listen_fails (backlog : Int) (c : ListenCandidate)
    (post : List ListenCandidate)
    (h1 : 0 ≤ c.socketRet) (h2 : ¬ c.setsockoptRet < 0) (h3 : c.bindRet = 0)
    (h4 : c.listenRet < 0) :
    ∀ (pre : List ListenCandidate) (s : TcpServerImpl), (∀ p ∈ pre, PassedOver p) →
      (listenLoop backlog (pre ++ c :: post) s).1 =
        (if c.listenErrno = EADDRINUSE then Outcome.raised Exception.AddressInUse
         else Outcome.raised (Exception.SystemError c.listenErrno "listen")) ∧
      (listenLoop backlog (pre ++ c :: post) s).2.fd = -1 ∧
      (listenLoop backlog (pre ++ c :: post) s).2.pfd = none ∧
      (listenLoop backlog (pre ++ c :: post) s).2.os.sockets = created pre ++ s.os.sockets ∧
      (listenLoop backlog (pre ++ c :: post) s).2.os.trace =
        s.os.trace ++ pre.flatMap passedOverEvents ++ listenFailedEvents c backlog := by
  intro pre
  induction pre with
  | nil =>
    intro s _
    have h5 : ¬ c.socketRet < 0 := by omega
    rw [List.nil_append, listenLoop]
    by_cases he : c.listenErrno = EADDRINUSE
    · simp [create, World.socket, World.setsockopt, World.bind, World.listen, World.close, close,
        h1, h2, h3, h4, h5, he, eraseFd, created, listenFailedEvents]
    · simp [create, World.socket, World.setsockopt, World.bind, World.listen, World.close, close,
        h1, h2, h3, h4, h5, he, eraseFd, created, listenFailedEvents]
  | cons p pre ih =>
    intro s hall
    rw [List.cons_append, listenLoop_passedOver backlog p _ s (hall p (by simp))]
    have := ih (afterPassedOver p s) (fun x hx => hall x (List.mem_cons_of_mem p hx))
    simpa [created, afterPassedOver] using this

/-- C5. Let the candidates before `c` be passed over (no socket, or `bind`
fails), and let socket creation, `SO_REUSEADDR` and `bind` succeed for `c` and
`::listen(backlog)` fail.  Then `listen` raises AddressInUse when the error
code of `::listen` is `EADDRINUSE` and SystemError("listen") with that code
otherwise; the descriptor of `c` is closed (the object holds none, the last
call is its close) and no call is made for a later candidate.  This holds for
every `backlog`. -/
theorem listen_fails_on_listen (s : TcpServerImpl) (pre post : List ListenCandidate)
    (c : ListenCandidate) (backlog : Int) (hpre : ∀ p ∈ pre, PassedOver p)
    (h1 : 0 ≤ c.socketRet) (h2 : ¬ c.setsockoptRet < 0) (h3 : c.bindRet = 0)
    (h4 : c.listenRet < 0) :
    (c.listenErrno = EADDRINUSE →
      (listen s (pre ++ c :: post) backlog).1 = Outcome.raised Exception.AddressInUse) ∧
    (c.listenErrno ≠ EADDRINUSE →
      (listen s (pre ++ c :: post) backlog).1 =
        Outcome.raised (Exception.SystemError c.listenErrno "listen")) ∧
    (listen s (pre ++ c :: post) backlog).2.fd = -1 ∧
    (listen s (pre ++ c :: post) backlog).2.os.sockets = created pre ++ s.os.sockets ∧
    (listen s (pre ++ c :: post) backlog).2.os.trace =
      s.os.trace ++ pre.flatMap passedOverEvents ++ listenFailedEvents c backlog := by
  obtain ⟨k1, k2, _, k4, k5⟩ := listenLoop_listen_fails backlog c post h1 h2 h3 h4 pre s hpre
  refine ⟨fun he => ?_, fun he => ?_, k2, k4, k5⟩
  · rw [listen, k1, if_pos he]
  · rw [listen, k1, if_neg he]

/-- Witness of C5: backlog 0, the first candidate cannot be bound, `::listen`
on the second fails with `EADDRINUSE`. -/
theorem listen_fails_on_listen_witness :
    (listen (init (World.fresh Unit))
        [ListenCandidate.unbindable 3 10, ListenCandidate.unlistenable 4 11 98] 0).1 =
      Outcome.raised Exception.AddressInUse ∧
    (listen (init (World.fresh Unit))
        [ListenCandidate.unbindable 3 10, ListenCandidate.unlistenable 4 11 98] 0).2.fd = -1 :=
  have h := listen_fails_on_listen (init (World.fresh Unit)) [ListenCandidate.unbindable 3 10] []
    (ListenCandidate.unlistenable 4 11 98) 0 (by decide) (by decide) (by decide) (by decide)
    (by decide)
  ⟨h.1 (by decide), h.2.2.1⟩

/-! ### C6: descriptors of candidates on which `bind` fails -/

/-- When every candidate is passed over, `listen` raises SystemError("bind")
after a single `close`, that of the descriptor held last: the descriptors of the
candidates before it are not closed. -/
theorem listenLoop_all_passedOver (backlog : Int) :
    ∀ (cands : List ListenCandidate) (s : TcpServerImpl), (∀ p ∈ cands, PassedOver p) →
      listenLoop backlog cands s =
        (Outcome.raised (Exception.SystemError
            (close (cands.foldl (fun t p => afterPassedOver p t) s)).os.errno "bind"),
         close (cands.foldl (fun t p => afterPassedOver p t) s)) := by
  intro cands
  induction cands with
  | nil =>
    intro s _
    rw [listenLoop]
    rfl
  | cons p rest ih =>
    intro s hall
    rw [listenLoop_passedOver backlog p rest s (hall p (by simp)),
      ih (afterPassedOver p s) (fun x hx => hall x (List.mem_cons_of_mem p hx))]
    rfl

/-- C6 (the code departs from the claim). Two candidates, `bind` fails on
both: the socket of the second (descriptor 4) is created while descriptor 3,
created for the first, is still open and no close of 3 is ever made; `listen`
raises SystemError("bind") and descriptor 3 remains open. -/
theorem listen_leaks_on_bind_failure :
    (listen (init (World.fresh Unit))
        [ListenCandidate.unbindable 3 10, ListenCandidate.unbindable 4 11] 5).1 =
      Outcome.raised (Exception.SystemError 99 "bind") ∧
    (listen (init (World.fresh Unit))
        [ListenCandidate.unbindable 3 10, ListenCandidate.unbindable 4 11] 5).2.fd = -1 ∧
    (listen (init (World.fresh Unit))
        [ListenCandidate.unbindable 3 10, ListenCandidate.unbindable 4 11] 5).2.os.openFds = [3] ∧
    (listen (init (World.fresh Unit))
        [ListenCandidate.unbindable 3 10, ListenCandidate.unbindable 4 11] 5).2.os.trace =
      [Event.socket 2 3, Event.setsockopt 3, Event.bind 3 10,
       Event.socket 2 4, Event.setsockopt 4, Event.bind 4 11, Event.close 4] := by
  decide

/-! ### C9: `close` of the listening socket -/

theorem listening_close_fd (s : TcpServerImpl) : (close s).fd < 0 := by
  unfold close
  split
  · simp
  · omega

theorem listening_close_close (s : TcpServerImpl) : close (close s) = close s := by
  have h := listening_close_fd s
  have h' : ¬ 0 ≤ (close s).fd := by omega
  rw [close.eq_def (close s)]
  simp [h']

/-- C9 as stated fails: a listening socket that never listened records a poll
slot through `initializePoll`; `close` then finds no descriptor and leaves the
slot reference in place. -/
theorem close_keeps_slot_without_descriptor :
    (initializePoll false (init (World.fresh Unit)) (PollFd.result 0 0) 1).1 = Outcome.ok 1 ∧
    (initializePoll false (init (World.fresh Unit)) (PollFd.result 0 0) 1).2.fd = -1 ∧
    (close (initializePoll false (init (World.fresh Unit)) (PollFd.result 0 0) 1).2).pfd ≠
      none := by
  decide

/-- C9, amended. For every state of a listening socket that holds a descriptor
(`fd ≥ 0`), after `close` the poll slot reference is null and the descriptor is
unset, one close call having been made; for every state without descriptor
`close` changes nothing, so the descriptor stays unset and a slot reference
recorded by `initializePoll` stays as it is. -/
theorem close_detaches_when_open (s : TcpServerImpl) :
    (0 ≤ s.fd → (close s).pfd = none ∧ (close s).fd = -1 ∧
      (close s).os.trace = s.os.trace ++ [Event.close s.fd]) ∧
    (s.fd < 0 → close s = s) := by
  constructor
  · intro h
    simp [close, h, World.close]
  · intro h
    have h' : ¬ 0 ≤ s.fd := by omega
    simp [close, h']

/-- Witness of C9, amended: a socket holding descriptor 3 with a slot recorded,
and the socket of the counterexample. -/
theorem close_detaches_when_open_witness :
    (close { init (World.fresh Unit) with fd := 3, pfd := some (PollFd.result 3 0) }).pfd =
      none ∧
    close (initializePoll false (init (World.fresh Unit)) (PollFd.result 0 0) 1).2 =
      (initializePoll false (init (World.fresh Unit)) (PollFd.result 0 0) 1).2 :=
  ⟨((close_detaches_when_open
      { init (World.fresh Unit) with fd := 3, pfd := some (PollFd.result 3 0) }).1
      (by decide)).1,
   (close_detaches_when_open
      (initializePoll false (init (World.fresh Unit)) (PollFd.result 0 0) 1).2).2 (by decide)⟩

end TcpServerImpl

/-! ### C8: closing twice -/

/-- C8. For every state of a listening socket and of a connecting socket, a
second `close` right after a first one returns the state the first one left,
trace of system calls included, so it makes no close call; `close` has no
raising exit, and after it the descriptor is unset (and the connecting socket
is not connected). -/
theorem close_idempotent :
    (∀ s : TcpServerImpl, s.close.close = s.close ∧ s.close.fd < 0) ∧
    (∀ s : TcpSocketImpl, s.close.close = s.close ∧ s.close.fd = -1 ∧
      s.close.isConnected = false) :=
  ⟨fun s => ⟨TcpServerImpl.listening_close_close s, TcpServerImpl.listening_close_fd s⟩,
   fun s => ⟨TcpSocketImpl.connecting_close_close s, TcpSocketImpl.connecting_close_fd s,
     TcpSocketImpl.connecting_close_isConnected s⟩⟩

end Cxxtools
